import Mathlib

/-!
Verification development for the self_local_llm news RAG system.

The Python source is shallowly embedded: Python strings become `List Char`
(`Str`), floats become `ℚ`, dict-shaped records become structures, and every
external effect (SQLite, the embedding model, the LLM services, the message
broker, FAISS) is an explicit oracle argument, so each embedded function is a
pure, executable Lean definition mirroring the corresponding source function
statement by statement.

Note on text: the repository copy of the Python sources is double-encoded
(UTF-8 read as cp1254 and re-encoded); the Chinese string literals used here
are the deterministic re-decoding of those bytes, with the handful of
characters whose bytes the re-encoding destroyed restored from context.
-/

namespace SelfLLM

/-- Python strings are modelled as lists of characters (code points),
matching Python's `len`, slicing and containment semantics. -/
abbrev Str := List Char

def str (s : String) : Str := s.data

/-- Whitespace for Python's `str.strip()` / `str.split()` (ASCII whitespace;
the queries and literals in this system use no exotic Unicode spaces). -/
def isWS (c : Char) : Bool :=
  c = ' ' || c = '\t' || c = '\n' || c = '\r' || c = '\x0b' || c = '\x0c'

/-- Python `s.strip()`. -/
def trimStr (s : Str) : Str :=
  ((s.dropWhile isWS).reverse.dropWhile isWS).reverse

/-- Python `str.lower` on one character (ASCII; CJK characters are caseless,
so this matches Python on every string this system handles). -/
def lowerChar (c : Char) : Char :=
  if 'A' ≤ c ∧ c ≤ 'Z' then Char.ofNat (c.toNat + 32) else c

/-- Python `s.lower()`. -/
def lowerStr (s : Str) : Str := s.map lowerChar

def upperChar (c : Char) : Char :=
  if 'a' ≤ c ∧ c ≤ 'z' then Char.ofNat (c.toNat - 32) else c

/-- Python `s.upper()`. -/
def upperStr (s : Str) : Str := s.map upperChar

/-- Python `s.capitalize()`: first character upper-cased, the rest lower-cased. -/
def capStr : Str → Str
  | [] => []
  | c :: cs => upperChar c :: cs.map lowerChar

/-- Python `needle in hay` on strings: substring containment. -/
def substrB (needle hay : Str) : Bool := decide (needle <:+: hay)

/-- Worker for `replaceAll`: the fuel bounds the number of recursion steps
(one per character consumed at least), so `fuel = s.length` never runs out;
structural recursion keeps the definition kernel-computable. -/
def replaceAllGo (pat rep : Str) : Nat → Str → Str
  | 0, s => s
  | _ + 1, [] => []
  | fuel + 1, c :: cs =>
    if pat ≠ [] ∧ pat.isPrefixOf (c :: cs) then
      rep ++ replaceAllGo pat rep fuel ((c :: cs).drop pat.length)
    else
      c :: replaceAllGo pat rep fuel cs

/-- Python `s.replace(pat, rep)`: replace every non-overlapping occurrence,
left to right. (Python's behaviour for an empty pattern is never exercised
by the source; here an empty pattern leaves the string unchanged.) -/
def replaceAll (pat rep s : Str) : Str := replaceAllGo pat rep s.length s

/-- Python `s.split()` (no argument): split on whitespace runs, no empties. -/
def splitWS (s : Str) : List Str :=
  (List.splitOnP isWS s).filter (· ≠ [])

/-- Python `"sep".join`-style with a single space, via `List.intercalate`. -/
def joinSpace (parts : List Str) : Str := List.intercalate (str " ") parts

/-- `True` when the text has a CJK character, mirroring `is_chinese` in
`worker_rag.process_request` (range U+4E00 to U+9FFF). -/
def is_chinese (text : Str) : Bool :=
  text.any fun c => 0x4e00 ≤ c.toNat && c.toNat ≤ 0x9fff

/-- An article record as returned by `RAGSystem.search_articles`: the dict
keys used downstream by the orchestrator. -/
structure Article where
  id : Nat
  title : Str
  summary : Str
  content : Str
  source : Str
  pub_date : Str
  category : Str
  similarity : ℚ
deriving DecidableEq, Repr

/-- Descending order on the `similarity` score. -/
def simDescRel (x y : Article) : Prop := y.similarity ≤ x.similarity

instance : DecidableRel simDescRel :=
  fun x y => inferInstanceAs (Decidable (y.similarity ≤ x.similarity))

instance : IsTotal Article simDescRel :=
  ⟨fun a b => le_total b.similarity a.similarity⟩

instance : IsTrans Article simDescRel :=
  ⟨fun _ _ _ h₁ h₂ => le_trans h₂ h₁⟩

/-- Python `sorted(xs, key=lambda x: x['similarity'], reverse=True)`:
stable descending sort (insertion sort places an element before the first
strictly smaller score, so equal scores keep their original order, exactly
Python's stability). -/
def sortBySimDesc (l : List Article) : List Article := List.insertionSort simDescRel l

/-! ### `rag_system._calculate_temporal_weight` (lines 619-660)

The source parses `pub_date_str` with two `datetime` formats and compares
against `datetime.now`; parsing and the clock are external, so the embedded
function takes the parse outcome directly: `none` for a missing or
unparsable date, `some age` for a parsed date whose age is `age` hours. -/

/-- The step function of article age in hours (the body of
`_calculate_temporal_weight` after a successful parse). -/
def temporal_weight_of_age (age_hours : ℚ) : ℚ :=
  if age_hours < 12 then 15/10
  else if age_hours < 24 then 13/10
  else if age_hours < 72 then 11/10
  else if age_hours < 168 then 1
  else if age_hours < 720 then 8/10
  else 5/10

/-- `_calculate_temporal_weight`: `none` models an empty or unparsable
`pub_date` (every `return 0.7` path of the source). -/
def calculate_temporal_weight (parsed_age_hours : Option ℚ) : ℚ :=
  match parsed_age_hours with
  | none => 7/10
  | some age => temporal_weight_of_age age

/-- `rag_system._search_with_faiss` line 746:
`weighted_score = similarity * (0.7 + (0.3 * time_weight))`. -/
def weighted_score (similarity time_weight : ℚ) : ℚ :=
  similarity * (7/10 + 3/10 * time_weight)

/-! ### `rag_system.rerank_results` (lines 879-889)

The cross-encoder `self.reranker.predict` is external: its per-candidate raw
scores are the oracle argument `scores` (one per scored pair, in order). -/

/-- Line 886: `norm_score = (score + 10) / 20 if score > 1 else score`. -/
def rerank_norm (score : ℚ) : ℚ :=
  if 1 < score then (score + 10) / 20 else score

/-- `rerank_results(query, results, top_k)`. `candidates = results[:min(len,10)]`;
each scored candidate gets `similarity*0.4 + norm*0.6`; candidates beyond the
score list (never hit in the source, where `predict` returns one score per
pair) keep their score; result sorted descending and truncated to `top_k`. -/
def rerank_results (scores : List ℚ) (results : List Article) (top_k : Nat) :
    List Article :=
  let max_rerank := min results.length 10
  let candidates := results.take max_rerank
  let scored := (candidates.zip scores).map fun (c, score) =>
    { c with similarity := c.similarity * (4/10) + rerank_norm score * (6/10) }
  (sortBySimDesc (scored ++ candidates.drop scores.length)).take top_k

/-! ### `rag_system.store_article` (lines 439-519)

SQLite is embedded as in-memory tables; enrichment (summary, entities,
keywords, category — all LLM/NLP service calls) and chunk splitting /
embedding are oracles. `today_stamp` is `datetime.now().strftime("%a, %d %b %Y")`,
the string the same-day dedup query interpolates into `pub_date LIKE ?`
(it contains no SQL wildcard, so LIKE '%stamp%' is substring containment). -/

structure StoredArticle where
  id : Nat
  title : Str
  content : Str
  summary : Str
  entities : Str
  keywords : Str
  category : Str
  link : Str
  pub_date : Str
  source : Str
deriving DecidableEq, Repr

structure ChunkRow where
  article_id : Nat
  content : Str
deriving DecidableEq, Repr

structure RagDB where
  articles : List StoredArticle
  chunks : List ChunkRow
  next_id : Nat
deriving DecidableEq, Repr

/-- The article dict handed to `store_article` by RSS ingestion. -/
structure NewArticle where
  title : Str
  content : Str
  link : Str
  pub_date : Str
  source : Str
deriving DecidableEq, Repr

/-- The enrichment results and body chunking, produced by external services
in the source (`generate_summary`, `extract_entities`, `extract_keywords`,
`classify_category`, `split_into_chunks`). -/
structure EnrichOracle where
  summary : Str
  entities : Str
  keywords : Str
  category : Str
  body_chunks : List Str

/-- `store_article` on the happy path (no exception; a raised exception
returns `False` in the source and, before the insert, leaves the tables
unchanged likewise). Returns the inserted flag and the new database. -/
def store_article (db : RagDB) (today_stamp : Str) (enrich : EnrichOracle)
    (article : NewArticle) : Bool × RagDB :=
  -- 1. Exact link check
  if db.articles.any (fun e => e.link = article.link) then
    (false, db)
  else
    -- 2. Same-day semantic dedup: articles whose pub_date contains today's stamp
    let existing_today := db.articles.filter fun e => substrB today_stamp e.pub_date
    if existing_today.any (fun e =>
        substrB article.title e.title || substrB e.title article.title) then
      (false, db)
    else
      -- 3./4. enrich and insert (INSERT OR IGNORE: the link was just checked,
      -- so in this single-writer model the row is always inserted)
      let aid := db.next_id
      let row : StoredArticle :=
        { id := aid, title := article.title, content := article.content,
          summary := enrich.summary, entities := enrich.entities,
          keywords := enrich.keywords, category := enrich.category,
          link := article.link, pub_date := article.pub_date,
          source := article.source }
      -- 5. chunks = [title, summary] + split_into_chunks(content), length ≥ 5 kept
      let chunkTexts := ([article.title, enrich.summary] ++ enrich.body_chunks).filter
        fun c => 5 ≤ (trimStr c).length
      let newChunks := chunkTexts.map fun c => ChunkRow.mk aid c
      (true, { articles := db.articles ++ [row], chunks := db.chunks ++ newChunks,
               next_id := aid + 1 })

/-! ### The search cache (`rag_system._get_cache_key` / `search_articles`)

`search_articles` first computes
`cache_key = md5(f"{query}_{category}_{top_k}")` (line 670 packs
`f"{query}_{category}"` into `_get_cache_key`, which appends `_{top_k}` and
hashes). md5 is a function of its input string, so two searches share a cache
entry exactly when these packed strings are equal; the embedding keys the
cache by the packed string itself, which identifies entries whenever the md5
inputs coincide. Python renders `category=None` as the text `None`.
The cache is an insertion-ordered association list (a Python dict);
`pop(next(iter(...)))` removes the first-inserted entry. Everything between
the cache check and the cache store (FAISS/SQLite search, BM25, entity boost,
rerank) is the oracle `compute`. -/

def pyOptStr (s : Option Str) : Str :=
  match s with
  | none => str "None"
  | some v => v

/-- The string `_get_cache_key` hashes: `f"{query}_{category}" + "_" + str(top_k)`. -/
def cache_key_string (query : Str) (category : Option Str) (top_k : Nat) : Str :=
  query ++ str "_" ++ pyOptStr category ++ str "_" ++ str (toString top_k)

abbrev SearchCache := List (Str × List Article)

/-- `search_articles` at the caching level: a hit returns the stored list
unchanged; a miss computes, and caches only non-empty results, evicting the
oldest entry at capacity. Returns the results and the updated cache. -/
def search_articles_cached
    (compute : Str → Option Str → Nat → List Article)
    (cache : SearchCache) (cache_max_size : Nat)
    (query : Str) (top_k : Nat) (category : Option Str) :
    List Article × SearchCache :=
  let key := cache_key_string query category top_k
  match cache.lookup key with
  | some cached => (cached, cache)
  | none =>
    let final_results := compute query category top_k
    if final_results ≠ [] then
      let cache₁ := if cache_max_size ≤ cache.length then cache.drop 1 else cache
      (final_results, cache₁ ++ [(key, final_results)])
    else
      (final_results, cache)

/-! ### `client.LLMClient.generate` (lines 65-132)

The caller generates a fresh `request_id` (uuid4 — modelled as the argument
`rid`), publishes the request, then polls `basic_get` on the shared
`llm_responses` queue until a matching response arrives or the timeout
elapses. The finite stream of messages the broker hands this consumer is the
list `msgs`; `none` models a body whose `json.loads` raises
(`JSONDecodeError`), `some d` a parsed response dict. The timeout is the
exhaustion of the stream. Each processed message is recorded with the
acknowledgement the client sent for it. -/

structure RespMsg where
  request_id : Str
  response : Str
deriving DecidableEq, Repr

inductive ClientAck where
  | ack : ClientAck
  | nackNoRequeue : ClientAck
deriving DecidableEq, Repr

/-- Lines 108-111: a matching response whose text contains both "llama3" and
"not found" (lower-cased) is treated as a stale error, nacked, and skipped. -/
def old_error_filter (response : Str) : Bool :=
  substrB (str "llama3") (lowerStr response) &&
  substrB (str "not found") (lowerStr response)

/-- The polling loop: returns the response `generate` returns (or `none` on
timeout, i.e. when the stream is exhausted) together with the list of
processed messages and the acknowledgement sent for each. -/
def client_generate (rid : Str) : List (Option RespMsg) →
    Option RespMsg × List (Option RespMsg × ClientAck)
  | [] => (none, [])
  | none :: rest =>
    ((client_generate rid rest).1,
     (none, ClientAck.nackNoRequeue) :: (client_generate rid rest).2)
  | some d :: rest =>
    if d.request_id = rid then
      if old_error_filter d.response then
        ((client_generate rid rest).1,
         (some d, ClientAck.nackNoRequeue) :: (client_generate rid rest).2)
      else
        (some d, [(some d, ClientAck.ack)])
    else
      ((client_generate rid rest).1,
       (some d, ClientAck.nackNoRequeue) :: (client_generate rid rest).2)

/-! ### `worker_rag.RAGWorker` — the query orchestrator

String constants of `worker_rag.py`. -/

/-- `is_greeting_or_casual` line 109: the exact-match vocabulary. -/
def exact_greetings : List Str :=
  [str "hi", str "hello", str "hey", str "yo", str "sup", str "你好", str "您好",
   str "哈囉", str "嗨", str "早安", str "午安", str "晚安", str "thank you",
   str "thanks", str "謝謝", str "多謝", str "再見", str "bye", str "who are you",
   str "what can you do", str "你是誰", str "你能做什麼", str "你好嗎",
   str "how are you"]

/-- `is_greeting_or_casual` line 116: the short-substring vocabulary. -/
def short_greet_words : List Str :=
  [str "hi", str "hello", str "你好", str "謝謝", str "再見", str "哈囉"]

/-- `is_greeting_or_casual` (lines 106-118). -/
def is_greeting_or_casual (query : Str) : Bool :=
  let prompt_lower := trimStr (lowerStr query)
  if exact_greetings.contains prompt_lower then true
  else if (trimStr query).length ≤ 15 then
    short_greet_words.any fun w => substrB w prompt_lower
  else false

/-- Line 357: the out-of-scope weather keywords. -/
def weather_keywords : List Str :=
  [str "天氣", str "天气", str "氣溫", str "温度", str "降雨", str "颱風", str "台风"]

def canned_greeting_zh : Str := str "你好！我是新聞助手。有什麼我可以幫您的嗎？"

def canned_greeting_en : Str :=
  str "Hello! I'm a news assistant. How can I help you today?"

/-- Lines 360-369: the canned out-of-scope weather report. -/
def weather_report_zh : Str :=
  str "### ⚡ 今日快訊\n> 我目前的資料庫沒有「天氣/氣象」的即時來源，因此無法回答香港天氣。\n\n### 🔍 深度分析\n- 建議：新增香港天文台或天氣新聞的 RSS 來源後再查詢。\n\n### 📋 事實清單\n- **N/A | 系統**: 未收錄氣象來源。\n\n### ⚖️ 差異分析\n無。\n"

/-! `_extract_zh_terms` (lines 120-159). -/

/-- Line 127: glue words replaced by a separator. -/
def zh_glue : List Str :=
  [str "關於", str "关于", str "的", str "有什麼", str "有什么", str "進展",
   str "进展", str "嗎", str "么", str "？", str "?", str "！", str "!",
   str "，", str ",", str "。", str ".", str "：", str ":"]

/-- Lines 131-133: the stop list. -/
def zh_stop : List Str :=
  [str "今天", str "目前", str "最新", str "新聞", str "新闻", str "請問",
   str "请问", str "問題", str "问题", str "報導", str "报道", str "事件",
   str "情況", str "情况"]

/-- Lines 139-147: the raw candidate terms one part contributes. -/
def zh_part_candidates (p : Str) : List Str :=
  (if 2 ≤ p.length ∧ p.length ≤ 8 then [p] else []) ++
  (if 4 ≤ p.length then [p.take 4, p.drop (p.length - 4)] else []) ++
  (if 3 ≤ p.length then [p.take 3, p.drop (p.length - 3)] else []) ++
  (if 2 ≤ p.length then [p.take 2, p.drop (p.length - 2)] else [])

/-- `_extract_zh_terms`: glue words to separators, split, drop stop words,
collect sub-spans, deduplicate preserving order, keep the first 8. -/
def extract_zh_terms (text : Str) : List Str :=
  let s := zh_glue.foldl (fun acc g => replaceAll g (str "|") acc) text
  let parts := ((s.splitOn '|').map trimStr).filter (· ≠ [])
  let candidates := parts.foldl
    (fun acc p => if zh_stop.contains p then acc else acc ++ zh_part_candidates p) []
  let out := candidates.foldl
    (fun out t₀ =>
      let t := trimStr t₀
      if t = [] || zh_stop.contains t then out
      else if out.contains t then out else out ++ [t])
    []
  out.take 8

/-! `_filter_articles` (lines 462-502), the closure inside `process_request`. -/

/-- The haystack every lexical check scans:
`f"{a.get('title','')} {a.get('summary','')} {a.get('content','')}"`. -/
def hayOf (a : Article) : Str :=
  a.title ++ str " " ++ a.summary ++ str " " ++ a.content

/-- Line 469 (and 378): `{q, q.replace("馬", "马"), q.replace("马", "馬")}` —
the fixed traditional/simplified single-character variant substitutions. -/
def zh_variant_set (q : Str) : List Str :=
  [q, replaceAll (str "馬") (str "马") q, replaceAll (str "马") (str "馬") q]

/-- Lines 470-472: a candidate passes the short Chinese guardrail when some
non-empty variant of `q` occurs in its haystack. -/
def lexOkZh (q : Str) (a : Article) : Bool :=
  (zh_variant_set q).any fun v => v ≠ [] && substrB v (hayOf a)

/-- Lines 476-479: case-insensitive containment for short Latin queries. -/
def lexOkEn (q : Str) (a : Article) : Bool :=
  substrB (lowerStr q) (lowerStr (hayOf a))

/-- Line 486: `str.maketrans({"內": "内", "國": "国", "臺": "台"})`. -/
def zh_trans (s : Str) : Str :=
  s.map fun c => if c = '內' then '内' else if c = '國' then '国'
    else if c = '臺' then '台' else c

/-- Lines 487-493: the topic-term variant set for long Chinese queries. -/
def topic_variants (base_terms : List Str) : List Str :=
  base_terms.foldl
    (fun acc t =>
      acc ++ [t, zh_trans t] ++
        (if 3 ≤ t.length then [t.take 2, (zh_trans t).take 2] else []))
    []

/-- Lines 495-497: a candidate passes the long-query topical filter when some
non-empty variant occurs in its haystack. -/
def topicOk (base_terms : List Str) (a : Article) : Bool :=
  (topic_variants base_terms).any fun v => v ≠ [] && substrB v (hayOf a)

/-- `_filter_articles(arts, query_for_lex)`. `is_chinese_query` and `prompt`
are the enclosing `process_request` locals the closure captures (the long
Chinese branch extracts terms from `prompt`, not from `query_for_lex`). -/
def filter_articles (is_chinese_query : Bool) (prompt query_for_lex : Str)
    (arts : List Article) : List Article :=
  if arts = [] then []
  else
    let q := trimStr query_for_lex
    if is_chinese_query && q.length ≤ 4 then
      arts.filter (lexOkZh q)
    else if !is_chinese_query && q.length ≤ 10 then
      arts.filter (lexOkEn q)
    else if is_chinese_query && 4 < q.length then
      let base_terms := extract_zh_terms prompt
      if base_terms ≠ [] then arts.filter (topicOk base_terms) else arts
    else arts

/-! ### `worker_rag.RAGWorker.process_request` (lines 292-731)

Every external call the handler makes is an oracle field: `search` is
`self.rag.search_articles` (always called with `use_rerank=True`); the
planner fields are the values the four `re.search` groups extract from the
planner LLM text (with `none` for a missing label); `query_variations` is
`generate_query_variations`; `reflect_conflicts` is the parsed `CONFLICTS:`
value; `llm` is `call_llm_api` for the final generation; `render_report` is
`_render_structured_report` (it calls the constrained-analysis LLM);
`clarify_zh` is the `clarify_zh.txt` template application;
`suggestions_parsed` is the parsed suggestion-line list. The thresholds are
the source defaults `FAST_ACCEPT = 0.62`, `RELEVANCE_THRESHOLD = 0.45`,
`REFLECT_MIN = 0.60`. -/

structure SearchCall where
  query : Str
  top_k : Nat
  category : Option Str
deriving DecidableEq, Repr

structure Oracles where
  search : Str → Nat → Option Str → List Article
  use_fast_classifier : Bool
  fast_decision : Option Str
  use_multi_query : Bool
  use_openrouter : Bool
  stream_mode : Bool
  planner_keywords : Option Str
  planner_category : Option Str
  planner_hyde : Option Str
  planner_intent : Option Str
  query_variations : Str → List Str
  reflect_conflicts : Str
  llm : Str → Str
  render_report : Str → List Article → Str → Str → Str → Str
  clarify_zh : Str → Str → Str → Str → Str
  suggestions_parsed : List Str

/-- The mutable locals of `process_request`, plus ghost observability fields
(`search_calls` records every `rag.search_articles` invocation;
`pre_gate_articles`/`pre_gate_score` snapshot the evidence reaching the
relevance gate). -/
structure PState where
  use_rag : Bool
  needs_clarification : Bool
  is_ambiguous : Bool
  generated_text : Str
  final_prompt : Option Str
  context : Str
  relevant_articles : List Article
  max_similarity_score : Option ℚ
  tools_used : List Str
  detected_intent : Str
  detected_conflicts : Str
  search_calls : List SearchCall
  pre_gate_articles : List Article
  pre_gate_score : Option ℚ
deriving Repr

def initState (prompt : Str) : PState :=
  { use_rag := true, needs_clarification := false, is_ambiguous := false,
    generated_text := [], final_prompt := some prompt, context := [],
    relevant_articles := [], max_similarity_score := none, tools_used := [],
    detected_intent := str "brief", detected_conflicts := [],
    search_calls := [], pre_gate_articles := [], pre_gate_score := none }

/-- The fully-determined state the pipeline is in right after the greeting
filter fires (all later routing stages leave it unchanged). -/
def greetState (q : Str) : PState :=
  { use_rag := false, needs_clarification := false, is_ambiguous := false,
    generated_text := if is_chinese q then canned_greeting_zh else canned_greeting_en,
    final_prompt := some q, context := [], relevant_articles := [],
    max_similarity_score := none, tools_used := [str "greeting_filter"],
    detected_intent := str "brief", detected_conflicts := [],
    search_calls := [], pre_gate_articles := [], pre_gate_score := none }

/-- Lines 339-347: the ambiguity pre-check. -/
def ambiguity_flag (prompt : Str) : Bool :=
  let query_len := (trimStr prompt).length
  if is_chinese prompt then
    query_len ≤ 3 && !is_greeting_or_casual prompt
  else
    match splitWS (trimStr prompt) with
    | [w] => decide (w.length ≤ 8) && !is_greeting_or_casual prompt
    | _ => false

/-- Lines 349-369: greeting filter and out-of-scope weather router. -/
def greet_weather_stage (prompt : Str) (st : PState) : PState :=
  if is_greeting_or_casual prompt then
    { st with
      use_rag := false
      tools_used := st.tools_used ++ [str "greeting_filter"]
      generated_text :=
        if is_chinese prompt then canned_greeting_zh else canned_greeting_en }
  else if is_chinese prompt && weather_keywords.any (fun k => substrB k prompt) then
    { st with
      use_rag := false
      tools_used := st.tools_used ++ [str "router_weather_out_of_scope"]
      generated_text := weather_report_zh }
  else st

/-- Lines 397-416: the three clarification options for a Chinese query. -/
def clarify_options_zh (prompt : Str) : List Str :=
  if [str "港", str "香"].any (fun c => substrB c prompt) then
    [str "香港最新新聞", str "香港政治", str "香港經濟"]
  else if [str "中", str "國"].any (fun c => substrB c prompt) then
    [str "中國政治", str "中國經濟", str "中國社會"]
  else if [str "美", str "國"].any (fun c => substrB c prompt) then
    [str "美國政治", str "美國經濟", str "美國科技"]
  else
    [prompt ++ str "最新消息", prompt ++ str "相關新聞", prompt ++ str "深度分析"]

/-- Lines 420-426: the English clarification text. -/
def english_clarify (prompt : Str) : Str :=
  str "Your query '" ++ prompt ++ str "' is quite brief. Could you clarify:\n" ++
  str "1. **Latest news about " ++ prompt ++ str "**\n" ++
  str "2. **Analysis/explanation of " ++ prompt ++ str "**\n" ++
  str "3. **Compare different sources on " ++ prompt ++ str "**\n" ++
  str "4. **Other** (please specify)"

/-- Lines 375-382: the quick `top_k=2` retrieval with the inline Chinese
lexical check (which, unlike `_filter_articles`, builds the variant set from
the raw `prompt`). -/
def quickFiltered (o : Oracles) (prompt : Str) : List Article :=
  let quick₀ := o.search prompt 2 none
  if quick₀ ≠ [] && is_chinese prompt && (trimStr prompt).length ≤ 4 then
    quick₀.filter fun a =>
      (zh_variant_set prompt).any fun v => v ≠ [] && substrB v (hayOf a)
  else quick₀

/-- Line 384: `quick_test and quick_test[0].get('similarity', 0) >= 0.60`. -/
def quickStrong (o : Oracles) (prompt : Str) : Bool :=
  match quickFiltered o prompt with
  | q0 :: _ => decide (mkRat 6 10 ≤ q0.similarity)
  | [] => false

/-- The clarification text for a Chinese query (the `clarify_zh.txt`
template applied to the three options of lines 399-415). -/
def clarify_text_zh (o : Oracles) (prompt : Str) : Str :=
  let options := clarify_options_zh prompt
  o.clarify_zh prompt (options.getD 0 (str "選項1"))
    (options.getD 1 (str "選項2")) (options.getD 2 (str "選項3"))

/-- Lines 371-426: the ambiguity gate — quick retrieval, then either fall
through (strong match) or clarification. -/
def clarify_stage (o : Oracles) (prompt : Str) (st₀ : PState) : PState :=
  if st₀.is_ambiguous && st₀.use_rag then
    let st := { st₀ with
      search_calls := st₀.search_calls ++ [SearchCall.mk prompt 2 none] }
    if quickStrong o prompt then { st with is_ambiguous := false }
    else
      { st with
        needs_clarification := true
        use_rag := false
        tools_used := st.tools_used ++ [str "clarify_ambiguous"]
        generated_text :=
          if is_chinese prompt then clarify_text_zh o prompt
          else english_clarify prompt }
  else st₀

/-- Lines 428-433: the optional fast classifier. -/
def classifier_stage (o : Oracles) (st : PState) : PState :=
  if !st.needs_clarification && o.use_fast_classifier then
    if o.fast_decision = some (str "NONE") then { st with use_rag := false } else st
  else st

/-- Stages 0-2.6 composed, from the initial state. -/
def route_stage (o : Oracles) (prompt : Str) : PState :=
  classifier_stage o <| clarify_stage o prompt <| greet_weather_stage prompt <|
    { initState prompt with is_ambiguous := ambiguity_flag prompt }

/-! The RAG pipeline (lines 436-663). -/

/-- Lines 456-459: one article's contribution to the evidence context. -/
def build_context_entry (a : Article) : Str :=
  str "【來源】: " ++ a.source ++ str " (日期: " ++ a.pub_date ++ str ")\n" ++
  str "【分類】: " ++ a.category ++ str " | 【標題】: " ++ a.title ++ str "\n" ++
  str "【詳細內容】: " ++ a.content.take 600 ++ str "\n" ++
  str "-----------------------------------\n"

/-- `_build_context` (lines 450-460): extends the context, raises the best
score, appends the articles. -/
def build_context (context : Str) (maxs : Option ℚ) (rel : List Article)
    (arts : List Article) : Str × Option ℚ × List Article :=
  (arts.foldl (fun c a => c ++ build_context_entry a) context,
   arts.foldl
     (fun m a => match m with
       | none => some a.similarity
       | some v => if v < a.similarity then some a.similarity else some v)
     maxs,
   rel ++ arts)

/-- Lines 523-531: the fast-path intent heuristic. -/
def infer_intent (prompt : Str) : Str :=
  let pl := lowerStr prompt
  if [str "latest", str "最新", str "update", str "更新", str "progress",
      str "進展"].any (fun w => substrB w pl) then str "update"
  else if [str "compare", str "比較", str "difference", str "差異",
      str "conflict", str "衝突"].any (fun w => substrB w pl) then str "compare"
  else if [str "why", str "為什麼", str "原因", str "impact", str "影響",
      str "explain", str "解釋"].any (fun w => substrB w pl) then str "explain"
  else str "brief"

/-- Lines 586-589: deduplicate by article id keeping the highest score per
id; a replaced entry keeps its first-insertion position (a Python dict). -/
def dedup_max_by_id (arts : List Article) : List Article :=
  arts.foldl
    (fun acc a =>
      match acc.find? (fun b => b.id = a.id) with
      | none => acc ++ [a]
      | some b =>
        if b.similarity < a.similarity then
          acc.map (fun c => if c.id = a.id then a else c)
        else acc)
    []

/-- Lines 552-564: the values the planner parse leaves in the locals.
`search_query` defaults to the original prompt, `selected_category` to
`"ALL"`, `hyde_summary` to the empty string, `detected_intent` to `"brief"`
unless a recognized label is extracted. -/
def planner_search_query (o : Oracles) (prompt : Str) : Str :=
  match o.planner_keywords with
  | some g => trimStr g
  | none => prompt

def planner_selected_category (o : Oracles) : Str :=
  match o.planner_category with
  | some g => capStr (((trimStr g).splitOn ',').headD [])
  | none => str "ALL"

def planner_hyde_summary (o : Oracles) : Str :=
  match o.planner_hyde with
  | some g => trimStr g
  | none => []

def planner_detected_intent (o : Oracles) : Str :=
  match o.planner_intent with
  | some g =>
    let s := lowerStr (trimStr g)
    if [str "brief", str "update", str "compare", str "explain"].contains s then s
    else str "brief"
  | none => str "brief"

/-- Line 571: the category filter the retry search passes. -/
def cat_filter_of (o : Oracles) : Option Str :=
  if upperStr (planner_selected_category o) = str "ALL" then none
  else some (planner_selected_category o)

/-- Lines 572-574: the retry query (keywords, plus HyDE text if present). -/
def retry_query_of (o : Oracles) (prompt : Str) : Str :=
  if planner_hyde_summary o ≠ [] then
    planner_search_query o prompt ++ str " " ++ planner_hyde_summary o
  else planner_search_query o prompt

/-- Lines 577-592: the retry retrieval — multi-query (paraphrase variants at
`top_k=2`, dedup by article id keeping the best score, top 3 overall) when
enabled and the keyword query is longer than 4 characters, otherwise a single
`top_k=3` search. Returns the raw candidates and the search calls made. -/
def retry_pair (o : Oracles) (prompt : Str) : List Article × List SearchCall :=
  let search_query := planner_search_query o prompt
  let retry_query := retry_query_of o prompt
  let cat_filter := cat_filter_of o
  let skip_multi := (trimStr search_query).length ≤ 4
  if o.use_multi_query && !skip_multi then
    let queries₀ := o.query_variations search_query
    let queries :=
      if retry_query ≠ [] && retry_query ≠ search_query then
        retry_query :: queries₀
      else queries₀
    let used := queries.take 3
    let all_articles := (used.map fun q => o.search q 2 cat_filter).flatten
    ((sortBySimDesc (dedup_max_by_id all_articles)).take 3,
     used.map fun q => SearchCall.mk q 2 cat_filter)
  else
    (o.search retry_query 3 cat_filter, [SearchCall.mk retry_query 3 cat_filter])

/-- Lines 533-603: the planner + HyDE + retry branch, entered when the fast
path is not accepted. The retry evidence replaces the fast-path evidence
only when something survived filtering. -/
def planner_retry_stage (o : Oracles) (prompt : Str) (st₀ : PState) : PState :=
  let st := { st₀ with
    tools_used := st₀.tools_used ++ [str "planner"]
    detected_intent := planner_detected_intent o }
  let st := if planner_hyde_summary o ≠ [] then
      { st with tools_used := st.tools_used ++ [str "hyde"] } else st
  let st := { st with search_calls := st.search_calls ++ (retry_pair o prompt).2 }
  let arts₂ := filter_articles (is_chinese prompt) prompt
    (planner_search_query o prompt) (retry_pair o prompt).1
  if arts₂ ≠ [] then
    let bc := build_context [] none [] arts₂
    { st with
      context := bc.1
      max_similarity_score := bc.2.1
      relevant_articles := bc.2.2 }
  else st

/-- Lines 605-624: the optional reflection step (only conflicts and the tool
trace change). -/
def reflection_stage (o : Oracles) (st : PState) : PState :=
  if st.relevant_articles ≠ [] &&
      decide (mkRat 6 10 ≤ st.max_similarity_score.getD 0) then
    let sources :=
      ((st.relevant_articles.map (·.source)).filter (· ≠ [])).dedup
    if 2 ≤ sources.length then
      let conflicts := o.reflect_conflicts
      let st := { st with
        tools_used := st.tools_used ++ [str "reflection"]
        detected_conflicts := conflicts }
      if ([str "none", str "無", ([] : Str)].contains (lowerStr conflicts)) = false then
        { st with tools_used := st.tools_used ++ [str "conflict_detected"] }
      else st
    else st
  else st

/-- Lines 506-510: the direct query of the fast path (term extraction for
longer Chinese queries). -/
def direct_query_of (prompt : Str) : Str :=
  if is_chinese prompt && 4 < (trimStr prompt).length then
    let terms := extract_zh_terms prompt
    if terms ≠ [] then joinSpace terms else prompt
  else prompt

/-- Lines 504-518: the fast-path retrieval (`top_k=3`, guardrail-filtered,
context built from the survivors). -/
def fast_path_state (o : Oracles) (prompt : Str) (st₀ : PState) : PState :=
  let st := { st₀ with
    tools_used := st₀.tools_used ++ [str "RAG_fast"]
    search_calls := st₀.search_calls ++
      [SearchCall.mk (direct_query_of prompt) 3 none] }
  let arts := filter_articles (is_chinese prompt) prompt prompt
    (o.search (direct_query_of prompt) 3 none)
  let bc := build_context st.context st.max_similarity_score
    st.relevant_articles arts
  { st with
    context := bc.1
    max_similarity_score := bc.2.1
    relevant_articles := bc.2.2 }

/-- Line 521: accept the fast path when the best score reaches
`FAST_ACCEPT = 0.62` and at least one result survived filtering. -/
def fast_accept (st : PState) : Bool :=
  (match st.max_similarity_score with
   | some v => decide (mkRat 62 100 ≤ v)
   | none => false) && decide (0 < st.relevant_articles.length)

/-- Lines 504-624: fast-path retrieval, optional planner retry, reflection. -/
def retrieval_stage (o : Oracles) (prompt : Str) (st₀ : PState) : PState :=
  let st := fast_path_state o prompt st₀
  let st :=
    if fast_accept st then
      { st with
        tools_used := st.tools_used ++ [str "fast_path_accept"]
        detected_intent := infer_intent prompt }
    else
      planner_retry_stage o prompt st
  reflection_stage o st

/-- Lines 639-649: the Chinese templated "no information" report used as the
final prompt when the relevance gate trips. -/
def no_info_zh (prompt : Str) : Str :=
  str "### ⚡ 今日快訊\n> 資料庫目前沒有關於「" ++ prompt ++
  str "」的相關報導。\n\n### 🔍 深度分析\n- 可能原因：目前收錄來源尚未覆蓋該主題，或尚未完成下一輪同步。\n- 建議：等待下一輪 RSS 同步（每 10 分鐘一次），或新增/調整 RSS 來源以涵蓋此主題。\n\n### 📋 事實清單\n- **N/A | 系統**: 本次查詢未在資料庫中找到可引用的相關新聞。\n\n### ⚖️ 差異分析\n（無；因為沒有可比對的來源）\n"

/-- Line 651: the English "no information" generation instruction. -/
def no_info_en (today_str prompt : Str) : Str :=
  str "Today is " ++ today_str ++ str ". User asked '" ++ prompt ++
  str "' but no relevant news was found in the database. Politely say you don't have data on this topic yet and suggest waiting for the next RSS sync or adding a relevant RSS source. Do NOT mention unrelated topics."

/-- Lines 628-663: the relevance gate. If no evidence survived or the best
score is below 0.45, every piece of evidence is wiped and the final prompt
becomes the templated no-information report; otherwise the deterministic
report renderer produces the response. (`max_similarity_score` is always
`some` when `relevant_articles` is non-empty, so `getD 0` mirrors the Python
comparison exactly on every reachable state.) -/
def gate_stage (o : Oracles) (prompt today_str : Str) (st₀ : PState) : PState :=
  if st₀.use_rag then
    let st := { st₀ with
      pre_gate_articles := st₀.relevant_articles
      pre_gate_score := st₀.max_similarity_score }
    if st.relevant_articles = [] || st.max_similarity_score.getD 0 < mkRat 45 100 then
      { st with
        context := []
        relevant_articles := []
        max_similarity_score := some 0
        final_prompt := some (if is_chinese prompt then no_info_zh prompt
          else no_info_en today_str prompt) }
    else
      { st with
        generated_text := o.render_report prompt (st.relevant_articles.take 3)
          today_str st.detected_conflicts st.detected_intent
        tools_used := st.tools_used ++ [str "template_report"]
        final_prompt := none }
  else st₀

/-- Lines 665-671: final generation. -/
def generation_stage (o : Oracles) (prompt : Str) (st : PState) : PState :=
  if st.generated_text = [] then
    if o.stream_mode && !o.use_openrouter then
      { st with generated_text := str "[STREAMING_READY]" }
    else
      let p := match st.final_prompt with
        | some s => if s ≠ [] then s else prompt
        | none => prompt
      { st with generated_text := o.llm p }
  else st

/-- Lines 673-698: follow-up suggestions, only over real evidence. -/
def suggestions_of (o : Oracles) (st : PState) : List Str :=
  if st.use_rag && st.relevant_articles ≠ [] && st.context ≠ [] &&
      st.generated_text ≠ str "[STREAMING_READY]" then
    o.suggestions_parsed.take 3
  else []

/-- The response message of lines 705-718 plus the ghost observability
fields. -/
structure PipeOutcome where
  response : Str
  suggestions : List Str
  final_prompt_out : Option Str
  status : Str
  rag_used : Bool
  articles_found : Nat
  tools_used : List Str
  needs_clarification : Bool
  context : Str
  relevant_articles : List Article
  final_prompt_internal : Option Str
  pre_gate_articles : List Article
  pre_gate_score : Option ℚ
  search_calls : List SearchCall
  reached_retrieval : Bool
deriving Repr

/-- `RAGWorker.process_request`, composed from the stages. -/
def process_request (o : Oracles) (prompt today_str : Str) : PipeOutcome :=
  let st₁ := route_stage o prompt
  let reached := st₁.use_rag && !st₁.needs_clarification
  let st₃ :=
    if reached then gate_stage o prompt today_str (retrieval_stage o prompt st₁)
    else st₁
  let st₄ := generation_stage o prompt st₃
  { response := st₄.generated_text
    suggestions := suggestions_of o st₄
    final_prompt_out :=
      if o.stream_mode && !o.use_openrouter then st₄.final_prompt else none
    status := str "success"
    rag_used := st₄.use_rag
    articles_found := st₄.relevant_articles.length
    tools_used := st₄.tools_used
    needs_clarification := st₄.needs_clarification
    context := st₄.context
    relevant_articles := st₄.relevant_articles
    final_prompt_internal := st₄.final_prompt
    pre_gate_articles := st₄.pre_gate_articles
    pre_gate_score := st₄.pre_gate_score
    search_calls := st₄.search_calls
    reached_retrieval := reached }

/-! ### The worker's broker effects (`worker_rag.process_request` lines
705-731, `worker_ollama.LLMWorker.process_request` lines 158-208)

The whole handler body runs in one `try`; on success it publishes the
response to `properties.reply_to` (or the default `llm_responses` queue)
with the request's correlation id and acknowledges; the `except` handler
(worker_rag lines 729-731, worker_ollama lines 205-208) only negatively
acknowledges without requeue. A body whose `json.loads` raises is the
canonical failing input; any other in-flight exception reaches the same
handler. -/

inductive WorkerAction where
  | publish (routing_key : Str) (body : Str) (correlation_id : Option Str) : WorkerAction
  | ack : WorkerAction
  | nackNoRequeue : WorkerAction
deriving DecidableEq, Repr

def WorkerAction.isPublish : WorkerAction → Bool
  | .publish _ _ _ => true
  | _ => false

/-- Message properties delivered with the request. -/
structure DeliveryProps where
  reply_to : Option Str
  correlation_id : Option Str

/-- The broker actions one delivery produces: `processing` is the outcome of
the handler body (`Except.error` when any exception was raised — malformed
JSON, a failing service call, a publish error; `Except.ok` carries the
serialized response body). -/
def worker_effects (processing : Except Unit Str) (props : DeliveryProps) :
    List WorkerAction :=
  match processing with
  | .ok response_body =>
    [WorkerAction.publish (props.reply_to.getD (str "llm_responses"))
        response_body props.correlation_id,
     WorkerAction.ack]
  | .error _ => [WorkerAction.nackNoRequeue]

/-! ### Concrete instances used by witnesses and counterexamples -/

/-- A candidate article with prior score 1/2. -/
def artHalf : Article :=
  { id := 1, title := str "t", summary := [], content := str "c",
    source := str "s", pub_date := [], category := str "General",
    similarity := 1/2 }

/-- An article whose text contains the query 馬拉松. -/
def artMarathon : Article :=
  { id := 2, title := str "馬拉松賽事今日開跑", summary := str "賽事",
    content := str "香港馬拉松今日舉行", source := str "rthk",
    pub_date := str "Sun, 12 Oct 2025 08:00:00 GMT", category := str "Sports",
    similarity := mkRat 9 10 }

/-- An article whose text does not contain the string zq anywhere. -/
def artOffTopic : Article :=
  { id := 3, title := str "xyz daily", summary := str "xyz",
    content := str "nothing relevant here", source := str "feed",
    pub_date := str "Sun, 12 Oct 2025 08:00:00 GMT", category := str "General",
    similarity := mkRat 9 10 }

/-- Oracles with no search results and every service trivial. -/
def oracleBase : Oracles :=
  { search := fun _ _ _ => []
    use_fast_classifier := false
    fast_decision := none
    use_multi_query := true
    use_openrouter := false
    stream_mode := false
    planner_keywords := none
    planner_category := none
    planner_hyde := none
    planner_intent := none
    query_variations := fun q => [q]
    reflect_conflicts := []
    llm := fun p => str "LLM:" ++ p
    render_report := fun _ _ _ _ _ => str "report"
    clarify_zh := fun p o₁ o₂ o₃ => str "clarify:" ++ p ++ o₁ ++ o₂ ++ o₃
    suggestions_parsed := [] }

/-- Oracles whose retrieval always returns the off-topic article. -/
def oracleOffTopic : Oracles := { oracleBase with search := fun _ _ _ => [artOffTopic] }

/-- A stored article from 06 Oct (not the current day). -/
def storedOldArticle : StoredArticle :=
  { id := 1, title := str "abc", content := str "old body", summary := str "s",
    entities := [], keywords := [], category := str "General",
    link := str "http://x/1", pub_date := str "Mon, 06 Oct 2025 10:00:00 GMT",
    source := str "w" }

/-- A stored article published on the current day (12 Oct). -/
def storedTodayArticle : StoredArticle :=
  { id := 1, title := str "abc", content := str "today body", summary := str "s",
    entities := [], keywords := [], category := str "General",
    link := str "http://x/1", pub_date := str "Sun, 12 Oct 2025 09:00:00 GMT",
    source := str "w" }

def dbOld : RagDB := { articles := [storedOldArticle], chunks := [], next_id := 2 }

def dbToday : RagDB := { articles := [storedTodayArticle], chunks := [], next_id := 2 }

/-- The current-day stamp `datetime.now().strftime("%a, %d %b %Y")`. -/
def todayStamp : Str := str "Sun, 12 Oct 2025"

/-- A new article published the same calendar day as `storedOldArticle`,
with a title that contains the stored title. -/
def newSameDayArticle : NewArticle :=
  { title := str "abc news", content := str "body", link := str "http://x/2",
    pub_date := str "Mon, 06 Oct 2025 11:00:00 GMT", source := str "w" }

/-- A new article published the current day, title related to
`storedTodayArticle`. -/
def newTodayArticle : NewArticle :=
  { title := str "abc news", content := str "body", link := str "http://x/3",
    pub_date := str "Sun, 12 Oct 2025 11:00:00 GMT", source := str "w" }

def enrichTrivial : EnrichOracle :=
  { summary := str "summary text", entities := [], keywords := [],
    category := str "General", body_chunks := [] }

/-- A shared-response-queue stream: a malformed body, a response for another
request, the matching response, then a late message never pulled. -/
def msgsDemo : List (Option RespMsg) :=
  [none, some ⟨str "r2", str "hello"⟩, some ⟨str "r1", str "ok"⟩]

end SelfLLM

namespace SelfLLM

/-! ## Theorems

Helper lemmas first, then one theorem (with witness or counterexample as
required) per claim. -/

theorem substrB_iff {needle hay : Str} : substrB needle hay = true ↔ needle <:+: hay := by
  simp [substrB]

/-! ### C3 — temporal weight -/

/-- C3 counterexample: the claim asserts an age of exactly 72 hours yields
weight 1.1, but `_calculate_temporal_weight` compares with `<`, so 72 hours
is not `< 72` and falls into the `< 168` bucket with weight 1.0. -/
theorem c3_counterexample :
    calculate_temporal_weight (some 72) = 1 ∧
    calculate_temporal_weight (some 72) ≠ 11/10 := by
  constructor <;> norm_num [calculate_temporal_weight, temporal_weight_of_age]

/-- C3 (amended): `temporal_weight` is the step function `<12h → 1.5`,
`<24h → 1.3`, `<72h → 1.1`, `<168h → 1.0`, `<720h → 0.8`, else `0.5`; a
missing or unparsable `pub_date` yields 0.7; an age exactly at a threshold
falls into the bucket of the *older* interval (the weaker boost), so
11h59m → 1.5, 12h00m → 1.3, 23h59m → 1.3, 72h00m → 1.0, 168h01m → 0.8,
30 days → 0.5; and the weighted score is
`similarity * (0.7 + 0.3 * temporal_weight)`. -/
theorem c3_temporal_weight :
    (∀ age : ℚ, age < 12 → temporal_weight_of_age age = 15/10) ∧
    (∀ age : ℚ, 12 ≤ age → age < 24 → temporal_weight_of_age age = 13/10) ∧
    (∀ age : ℚ, 24 ≤ age → age < 72 → temporal_weight_of_age age = 11/10) ∧
    (∀ age : ℚ, 72 ≤ age → age < 168 → temporal_weight_of_age age = 1) ∧
    (∀ age : ℚ, 168 ≤ age → age < 720 → temporal_weight_of_age age = 8/10) ∧
    (∀ age : ℚ, 720 ≤ age → temporal_weight_of_age age = 5/10) ∧
    calculate_temporal_weight none = 7/10 ∧
    calculate_temporal_weight (some (11 + 59/60)) = 15/10 ∧
    calculate_temporal_weight (some 12) = 13/10 ∧
    calculate_temporal_weight (some (23 + 59/60)) = 13/10 ∧
    calculate_temporal_weight (some 72) = 1 ∧
    calculate_temporal_weight (some (168 + 1/60)) = 8/10 ∧
    calculate_temporal_weight (some (30 * 24)) = 5/10 ∧
    (∀ sim tw : ℚ, weighted_score sim tw = sim * (7/10 + 3/10 * tw)) := by
  refine ⟨?_, ?_, ?_, ?_, ?_, ?_, ?_, ?_, ?_, ?_, ?_, ?_, ?_, ?_⟩
  · intro age h; simp [temporal_weight_of_age, h]
  · intro age h₁ h₂
    simp only [temporal_weight_of_age]
    rw [if_neg (by linarith), if_pos h₂]
  · intro age h₁ h₂
    simp only [temporal_weight_of_age]
    rw [if_neg (by linarith), if_neg (by linarith), if_pos h₂]
  · intro age h₁ h₂
    simp only [temporal_weight_of_age]
    rw [if_neg (by linarith), if_neg (by linarith), if_neg (by linarith), if_pos h₂]
  · intro age h₁ h₂
    simp only [temporal_weight_of_age]
    rw [if_neg (by linarith), if_neg (by linarith), if_neg (by linarith),
      if_neg (by linarith), if_pos h₂]
  · intro age h₁
    simp only [temporal_weight_of_age]
    rw [if_neg (by linarith), if_neg (by linarith), if_neg (by linarith),
      if_neg (by linarith), if_neg (by linarith)]
  · norm_num [calculate_temporal_weight]
  · norm_num [calculate_temporal_weight, temporal_weight_of_age]
  · norm_num [calculate_temporal_weight, temporal_weight_of_age]
  · norm_num [calculate_temporal_weight, temporal_weight_of_age]
  · norm_num [calculate_temporal_weight, temporal_weight_of_age]
  · norm_num [calculate_temporal_weight, temporal_weight_of_age]
  · norm_num [calculate_temporal_weight, temporal_weight_of_age]
  · intro sim tw; rfl

/-- C3 witness: the amended theorem applied at the concrete age 5h. -/
theorem c3_witness : temporal_weight_of_age 5 = 15/10 :=
  c3_temporal_weight.1 5 (by norm_num)

/-! ### C4 — rerank stage -/

/-- C4 counterexample: for the raw cross-encoder score −5 (outside [0,1])
`rerank_results` blends the raw score unchanged, giving −2.8, not the
0.4·prior + 0.6·(−5+10)/20 = 7/20 the claim requires. -/
theorem c4_counterexample :
    (rerank_results [-5] [artHalf] 1).map (·.similarity) = [-14/5] ∧
    (-14/5 : ℚ) ≠ artHalf.similarity * (4/10) + ((-5 + 10) / 20) * (6/10) := by
  constructor
  · norm_num [rerank_results, sortBySimDesc, List.insertionSort, List.orderedInsert,
      artHalf, rerank_norm]
  · norm_num [artHalf]

/-- C4 (amended): reranking applies to at most the first 10 candidates; each
reranked candidate's final score is `0.4 * prior + 0.6 * normalized`, where a
raw score strictly above 1 is rescaled via `(score + 10) / 20` and any raw
score ≤ 1 — including every raw score below 0 — is used unchanged; the result
is sorted descending by final score and truncated to `top_k`. -/
theorem c4_rerank (scores : List ℚ) (results : List Article) (top_k : Nat)
    (h : scores.length = min results.length 10) :
    (∀ a ∈ rerank_results scores results top_k,
        ∃ c s, (c, s) ∈ (results.take 10).zip scores ∧
          a = { c with similarity := c.similarity * (4/10) + rerank_norm s * (6/10) }) ∧
    (rerank_results scores results top_k).Pairwise simDescRel ∧
    (rerank_results scores results top_k).length ≤ top_k ∧
    (∀ s : ℚ, 1 < s → rerank_norm s = (s + 10) / 20) ∧
    (∀ s : ℚ, s ≤ 1 → rerank_norm s = s) := by
  have hc : results.take (min results.length 10) = results.take 10 := by
    rcases le_or_lt results.length 10 with hle | hlt
    · rw [min_eq_left hle, List.take_length, List.take_of_length_le hle]
    · rw [min_eq_right hlt.le]
  have hdrop : (results.take (min results.length 10)).drop scores.length = [] := by
    apply List.drop_eq_nil_of_le
    rw [h, List.length_take]
    omega
  refine ⟨?_, ?_, ?_, ?_, ?_⟩
  · intro a ha
    simp only [rerank_results, hdrop, List.append_nil] at ha
    have ha₂ := (List.perm_insertionSort simDescRel _).mem_iff.mp
      (List.mem_of_mem_take ha)
    rcases List.mem_map.mp ha₂ with ⟨⟨c, s⟩, hmem, heq⟩
    exact ⟨c, s, by rwa [hc] at hmem, heq.symm⟩
  · exact List.Pairwise.sublist (List.take_sublist _ _)
      (List.sorted_insertionSort simDescRel _)
  · simp only [rerank_results]
    exact List.length_take_le _ _
  · intro s hs; simp [rerank_norm, hs]
  · intro s hs; simp [rerank_norm, not_lt.mpr hs]

/-- C4 witness: the amended theorem at one candidate and raw score 1/2. -/
theorem c4_witness :
    ([(1:ℚ)/2].length = min [artHalf].length 10) ∧
    (rerank_results [(1:ℚ)/2] [artHalf] 1).Pairwise simDescRel :=
  ⟨by decide, (c4_rerank [(1:ℚ)/2] [artHalf] 1 (by decide)).2.1⟩

/-! ### C5 — store deduplication -/

/-- C5 counterexample: two articles published on the same calendar day
(06 Oct, not the current day), one title containing the other, distinct
links — yet the second `store_article` call returns `true` and inserts,
because the same-day dedup scan only examines stored articles whose
`pub_date` contains the *current* day's stamp. -/
theorem c5_counterexample :
    storedOldArticle.pub_date.take 16 = newSameDayArticle.pub_date.take 16 ∧
    substrB storedOldArticle.title newSameDayArticle.title = true ∧
    storedOldArticle.link ≠ newSameDayArticle.link ∧
    (store_article dbOld todayStamp enrichTrivial newSameDayArticle).1 = true ∧
    (store_article dbOld todayStamp enrichTrivial newSameDayArticle).2.articles.length = 2 := by
  refine ⟨by decide, by decide, by decide, by decide, by decide⟩

/-- C5 (amended): `store_article` returns `false` and leaves the articles
and chunks tables unchanged whenever the link is already present, or
whenever some stored article whose `pub_date` contains the *current* day's
`"%a, %d %b %Y"` stamp has a title that is a substring of, or contains, the
new article's title; the new article's own `pub_date` is never consulted, so
same-day pairs from any other calendar day are not deduplicated. -/
theorem c5_store_dedup (db : RagDB) (today_stamp : Str) (enrich : EnrichOracle)
    (a : NewArticle)
    (h : db.articles.any (fun e => e.link = a.link) = true ∨
      ∃ e ∈ db.articles, substrB today_stamp e.pub_date = true ∧
        (substrB a.title e.title = true ∨ substrB e.title a.title = true)) :
    store_article db today_stamp enrich a = (false, db) := by
  rcases h with hlink | ⟨e, he, hday, htitle⟩
  · simp only [store_article]
    rw [if_pos hlink]
  · by_cases hl : db.articles.any (fun e => e.link = a.link) = true
    · simp only [store_article]
      rw [if_pos hl]
    · have hany : ((db.articles.filter fun e => substrB today_stamp e.pub_date).any
          fun e => substrB a.title e.title || substrB e.title a.title) = true :=
        List.any_eq_true.mpr ⟨e, List.mem_filter.mpr ⟨he, hday⟩, by
          rcases htitle with h | h <;> simp [h]⟩
      simp only [store_article]
      rw [if_neg hl, if_pos hany]

/-- C5 witness: a genuine current-day duplicate (stored article dated with
the current stamp, substring-related titles) is rejected unchanged. -/
theorem c5_witness :
    store_article dbToday todayStamp enrichTrivial newTodayArticle = (false, dbToday) :=
  c5_store_dedup dbToday todayStamp enrichTrivial newTodayArticle
    (Or.inr ⟨storedTodayArticle, by decide, by decide, by decide⟩)

/-! ### C10 — cache key collision -/

/-- C10: the cache key hashes `"{query}_{category}_{top_k}"`, so the
distinct searches (query `a`, category `b_c`) and (query `a_b`, category
`c`) share a key, and once the first search's non-empty results are cached,
the second, different search returns the first's cached results whatever its
own computation would have produced. -/
theorem c10_cache_key_collision :
    ((str "a", some (str "b_c")) ≠ (str "a_b", some (str "c"))) ∧
    cache_key_string (str "a") (some (str "b_c")) 3 =
      cache_key_string (str "a_b") (some (str "c")) 3 ∧
    ∀ (compute₁ compute₂ : Str → Option Str → Nat → List Article),
      compute₁ (str "a") (some (str "b_c")) 3 ≠ [] →
      (search_articles_cached compute₂
          (search_articles_cached compute₁ [] 100 (str "a") 3 (some (str "b_c"))).2
          100 (str "a_b") 3 (some (str "c"))).1
        = compute₁ (str "a") (some (str "b_c")) 3 := by
  have hkey : cache_key_string (str "a") (some (str "b_c")) 3 =
      cache_key_string (str "a_b") (some (str "c")) 3 := by decide
  refine ⟨by decide, hkey, ?_⟩
  intro compute₁ compute₂ hne
  have h₁ : search_articles_cached compute₁ [] 100 (str "a") 3 (some (str "b_c"))
      = (compute₁ (str "a") (some (str "b_c")) 3,
         [(cache_key_string (str "a") (some (str "b_c")) 3,
           compute₁ (str "a") (some (str "b_c")) 3)]) := by
    simp [search_articles_cached, List.lookup, hne]
  rw [h₁]
  simp [search_articles_cached, List.lookup, ← hkey]

/-- C10 witness: the collision theorem at concrete compute functions — the
second query returns the first query's cached result list. -/
theorem c10_witness :
    (search_articles_cached (fun _ _ _ => [artOffTopic])
        (search_articles_cached (fun _ _ _ => [artHalf]) [] 100 (str "a") 3
          (some (str "b_c"))).2
        100 (str "a_b") 3 (some (str "c"))).1 = [artHalf] :=
  c10_cache_key_collision.2.2 (fun _ _ _ => [artHalf]) (fun _ _ _ => [artOffTopic])
    (by simp)

/-! ### C8 — RPC correlation -/

/-- Helper: whatever `client_generate` returns carries the caller's own
request id. -/
theorem client_generate_id (rid : Str) :
    ∀ (msgs : List (Option RespMsg)) (d : RespMsg),
      (client_generate rid msgs).1 = some d → d.request_id = rid := by
  intro msgs
  induction msgs with
  | nil => intro d h; simp [client_generate] at h
  | cons m rest ih =>
    intro d h
    match m with
    | none =>
      simp only [client_generate] at h
      exact ih d h
    | some e =>
      by_cases hid : e.request_id = rid
      · by_cases hf : old_error_filter e.response = true
        · simp only [client_generate, if_pos hid, if_pos hf] at h
          exact ih d h
        · simp only [client_generate, if_pos hid, if_neg hf] at h
          obtain rfl : e = d := by injection h
          exact hid
      · simp only [client_generate, if_neg hid] at h
        exact ih d h

/-- C8: `LLMClient.generate` over any finite delivered stream either returns
a response carrying its own fresh request id or returns `none` at timeout;
every processed message that is malformed or addressed to a different
request id is negatively acknowledged without requeue and is never the
returned value; hence two outstanding requests with different ids never
receive each other's response. -/
theorem c8_rpc_correlation (rid : Str) (msgs : List (Option RespMsg)) :
    ((client_generate rid msgs).1 = none ∨
      ∃ d, (client_generate rid msgs).1 = some d ∧ d.request_id = rid) ∧
    (∀ m ack, (m, ack) ∈ (client_generate rid msgs).2 →
      ack = ClientAck.ack → ∃ d, m = some d ∧ d.request_id = rid) ∧
    (∀ ack, (none, ack) ∈ (client_generate rid msgs).2 →
      ack = ClientAck.nackNoRequeue) ∧
    (∀ d ack, (some d, ack) ∈ (client_generate rid msgs).2 →
      d.request_id ≠ rid →
      ack = ClientAck.nackNoRequeue ∧ (client_generate rid msgs).1 ≠ some d) ∧
    (∀ rid₂ d, rid₂ ≠ rid → (client_generate rid msgs).1 = some d →
      d.request_id ≠ rid₂) := by
  refine ⟨?_, ?_, ?_, ?_, ?_⟩
  · match h : (client_generate rid msgs).1 with
    | none => exact Or.inl rfl
    | some d => exact Or.inr ⟨d, rfl, client_generate_id rid msgs d h⟩
  · intro m ack hmem hack
    subst hack
    induction msgs with
    | nil => simp [client_generate] at hmem
    | cons m₀ rest ih =>
      match m₀ with
      | none =>
        simp only [client_generate, List.mem_cons] at hmem
        rcases hmem with h | h
        · exact absurd (congrArg Prod.snd h) (by simp)
        · exact ih h
      | some e =>
        by_cases hid : e.request_id = rid
        · by_cases hf : old_error_filter e.response = true
          · simp only [client_generate, if_pos hid, if_pos hf, List.mem_cons] at hmem
            rcases hmem with h | h
            · exact absurd (congrArg Prod.snd h) (by simp)
            · exact ih h
          · simp only [client_generate, if_pos hid, if_neg hf, List.mem_cons,
              List.mem_singleton] at hmem
            rcases hmem with h | h
            · exact ⟨e, congrArg Prod.fst h, hid⟩
            · simp at h
        · simp only [client_generate, if_neg hid, List.mem_cons] at hmem
          rcases hmem with h | h
          · exact absurd (congrArg Prod.snd h) (by simp)
          · exact ih h
  · intro ack hmem
    induction msgs with
    | nil => simp [client_generate] at hmem
    | cons m₀ rest ih =>
      match m₀ with
      | none =>
        simp only [client_generate, List.mem_cons] at hmem
        rcases hmem with h | h
        · exact congrArg Prod.snd h
        · exact ih h
      | some e =>
        by_cases hid : e.request_id = rid
        · by_cases hf : old_error_filter e.response = true
          · simp only [client_generate, if_pos hid, if_pos hf, List.mem_cons] at hmem
            rcases hmem with h | h
            · exact absurd (congrArg Prod.fst h) (by simp)
            · exact ih h
          · simp only [client_generate, if_pos hid, if_neg hf,
              List.mem_singleton] at hmem
            exact absurd (congrArg Prod.fst hmem) (by simp)
        · simp only [client_generate, if_neg hid, List.mem_cons] at hmem
          rcases hmem with h | h
          · exact absurd (congrArg Prod.fst h) (by simp)
          · exact ih h
  · intro d ack hmem hne
    constructor
    · induction msgs with
      | nil => simp [client_generate] at hmem
      | cons m₀ rest ih =>
        match m₀ with
        | none =>
          simp only [client_generate, List.mem_cons] at hmem
          rcases hmem with h | h
          · exact absurd (congrArg Prod.fst h) (by simp)
          · exact ih h
        | some e =>
          by_cases hid : e.request_id = rid
          · by_cases hf : old_error_filter e.response = true
            · simp only [client_generate, if_pos hid, if_pos hf, List.mem_cons] at hmem
              rcases hmem with h | h
              · exact congrArg Prod.snd h
              · exact ih h
            · simp only [client_generate, if_pos hid, if_neg hf,
                List.mem_singleton] at hmem
              have hde : d = e := by
                have h₂ := congrArg Prod.fst hmem
                injection h₂
              exact absurd (hde ▸ hid) hne
          · simp only [client_generate, if_neg hid, List.mem_cons] at hmem
            rcases hmem with h | h
            · exact congrArg Prod.snd h
            · exact ih h
    · intro hret
      exact hne (client_generate_id rid msgs d hret)
  · intro rid₂ d hne hret
    rw [client_generate_id rid msgs d hret]
    exact fun h => hne h.symm

/-- C8 witness: the theorem at a concrete stream — the matching response is
returned, and it cannot carry the other outstanding request's id. -/
theorem c8_witness :
    (client_generate (str "r1") msgsDemo).1 = some ⟨str "r1", str "ok"⟩ ∧
    (∀ d, (client_generate (str "r1") msgsDemo).1 = some d →
      d.request_id ≠ str "r2") :=
  ⟨by decide,
   fun d h => (c8_rpc_correlation (str "r1") msgsDemo).2.2.2.2 (str "r2") d
     (by decide) h⟩

/-! ### C7 — worker error handling -/

/-- C7 counterexample: a request whose processing raises (here: a malformed
body) produces exactly one broker action — a negative acknowledgement
without requeue. No error response is published at all, although the claim
requires a best-effort error response carrying the correlation id. -/
theorem c7_counterexample :
    worker_effects (Except.error ()) ⟨none, some (str "abc")⟩ =
      [WorkerAction.nackNoRequeue] ∧
    (∀ a ∈ worker_effects (Except.error ()) ⟨none, some (str "abc")⟩,
      a.isPublish = false) := by
  exact ⟨rfl, by decide⟩

/-- C7 (amended): on any processing exception the worker negatively
acknowledges without requeue — the poison message is dropped and never
retried — and publishes nothing (no error response is sent; only the legacy
`worker.py` publishes one). On success it publishes the response to the
reply-to queue (or the default response queue) with the original correlation
id and acknowledges. -/
theorem c7_worker_error :
    (∀ (props : DeliveryProps) (e : Unit),
      worker_effects (Except.error e) props = [WorkerAction.nackNoRequeue] ∧
      ∀ a ∈ worker_effects (Except.error e) props,
        a.isPublish = false ∧ a ≠ WorkerAction.ack) ∧
    (∀ (props : DeliveryProps) (body : Str),
      worker_effects (Except.ok body) props =
        [WorkerAction.publish (props.reply_to.getD (str "llm_responses")) body
            props.correlation_id,
          WorkerAction.ack]) := by
  refine ⟨fun props e => ⟨rfl, ?_⟩, fun props body => rfl⟩
  intro a ha
  simp only [worker_effects, List.mem_singleton] at ha
  subst ha
  exact ⟨rfl, by simp⟩

/-- C7 witness: the amended theorem at a concrete failing delivery. -/
theorem c7_witness :
    WorkerAction.nackNoRequeue.isPublish = false ∧
    WorkerAction.nackNoRequeue ≠ WorkerAction.ack :=
  (c7_worker_error.1 ⟨some (str "q"), some (str "cid")⟩ ()).2
    WorkerAction.nackNoRequeue (by decide)

/-! ### C1 — short-query lexical guardrail -/

/-- C1: for a Chinese query of at most 4 characters (after stripping) or a
non-Chinese query of at most 10, every article `_filter_articles` keeps
contains the literal query or one of its fixed 馬↔马 variant substitutions
in the concatenation of title, summary and content (case-insensitively for
Latin); in particular an article surviving the filter for query 馬拉松
contains 馬拉松 or 马拉松. -/
theorem c1_short_query_guardrail :
    (∀ (prompt q : Str) (arts : List Article) (a : Article),
        a ∈ filter_articles true prompt q arts → (trimStr q).length ≤ 4 →
        ∃ v ∈ zh_variant_set (trimStr q), v ≠ [] ∧ v <:+: hayOf a) ∧
    (∀ (prompt q : Str) (arts : List Article) (a : Article),
        a ∈ filter_articles false prompt q arts → (trimStr q).length ≤ 10 →
        lowerStr (trimStr q) <:+: lowerStr (hayOf a)) ∧
    (∀ (prompt : Str) (arts : List Article) (a : Article),
        a ∈ filter_articles true prompt (str "馬拉松") arts →
        str "馬拉松" <:+: hayOf a ∨ str "马拉松" <:+: hayOf a) := by
  have part₁ : ∀ (prompt q : Str) (arts : List Article) (a : Article),
      a ∈ filter_articles true prompt q arts → (trimStr q).length ≤ 4 →
      ∃ v ∈ zh_variant_set (trimStr q), v ≠ [] ∧ v <:+: hayOf a := by
    intro prompt q arts a ha hlen
    by_cases harts : arts = []
    · subst harts; simp [filter_articles] at ha
    · simp only [filter_articles, if_neg harts, Bool.true_and] at ha
      rw [if_pos (by simpa using hlen)] at ha
      rcases List.mem_filter.mp ha with ⟨_, hok⟩
      rcases List.any_eq_true.mp hok with ⟨v, hv, hcond⟩
      obtain ⟨hne, hsub⟩ : v ≠ [] ∧ substrB v (hayOf a) = true := by
        simpa using hcond
      exact ⟨v, hv, hne, substrB_iff.mp hsub⟩
  have part₂ : ∀ (prompt q : Str) (arts : List Article) (a : Article),
      a ∈ filter_articles false prompt q arts → (trimStr q).length ≤ 10 →
      lowerStr (trimStr q) <:+: lowerStr (hayOf a) := by
    intro prompt q arts a ha hlen
    by_cases harts : arts = []
    · subst harts; simp [filter_articles] at ha
    · simp only [filter_articles, if_neg harts, Bool.false_and, Bool.not_false,
        Bool.true_and] at ha
      rw [if_neg (by simp), if_pos (by simpa using hlen)] at ha
      rcases List.mem_filter.mp ha with ⟨_, hok⟩
      exact substrB_iff.mp hok
  refine ⟨part₁, part₂, ?_⟩
  intro prompt arts a ha
  have h := part₁ prompt (str "馬拉松") arts a ha (by decide)
  have htrim : trimStr (str "馬拉松") = str "馬拉松" := by decide
  rw [htrim] at h
  have hv : zh_variant_set (str "馬拉松") =
      [str "馬拉松", str "马拉松", str "馬拉松"] := by decide
  rw [hv] at h
  rcases h with ⟨v, hvmem, _, hinf⟩
  simp only [List.mem_cons, List.not_mem_nil, or_false] at hvmem
  rcases hvmem with rfl | rfl | rfl
  · exact Or.inl hinf
  · exact Or.inr hinf
  · exact Or.inl hinf

/-- C1 witness: for the query 馬拉松 a marathon article passes the filter,
and the only way it can is by containing one of the two variants. -/
theorem c1_witness :
    str "馬拉松" <:+: hayOf artMarathon ∨ str "马拉松" <:+: hayOf artMarathon :=
  c1_short_query_guardrail.2.2 (str "馬拉松") [artMarathon] artMarathon (by decide)

/-! ### C9 — greeting false positives -/

theorem trimStr_length_le (s : Str) : (trimStr s).length ≤ s.length := by
  simp only [trimStr, List.length_reverse]
  calc ((s.dropWhile isWS).reverse.dropWhile isWS).length
      ≤ (s.dropWhile isWS).reverse.length := (List.dropWhile_sublist _).length_le
    _ = (s.dropWhile isWS).length := List.length_reverse _
    _ ≤ s.length := (List.dropWhile_sublist _).length_le

/-- A non-empty whitespace-free substring survives `dropWhile isWS`. -/
theorem infix_dropWhile_of_no_ws {w : Str} (hw : w ≠ [])
    (hws : ∀ c ∈ w, isWS c = false) :
    ∀ {s : Str}, w <:+: s → w <:+: s.dropWhile isWS := by
  intro s
  induction s with
  | nil =>
    intro h
    rw [List.infix_nil] at h
    exact absurd h hw
  | cons c cs ih =>
    intro h
    by_cases hc : isWS c = true
    · rw [List.dropWhile_cons_of_pos hc]
      apply ih
      rcases h with ⟨t, u, htu⟩
      match t, htu with
      | [], htu =>
        exfalso
        match w, hw with
        | w₀ :: w', _ =>
          have : w₀ = c := by
            have := congrArg (fun l => l.headD ' ') htu
            simpa using this
          exact absurd (this ▸ hws w₀ (List.mem_cons_self _ _)) (by simp [hc])
      | t₀ :: t', htu =>
        have : t' ++ w ++ u = cs := by
          have := congrArg List.tail htu
          simpa using this
        exact ⟨t', u, this⟩
    · rw [List.dropWhile_cons_of_neg hc]
      exact h

/-- A non-empty whitespace-free substring survives `strip()`. -/
theorem infix_trimStr {w s : Str} (hw : w ≠ [])
    (hws : ∀ c ∈ w, isWS c = false) (h : w <:+: s) : w <:+: trimStr s := by
  have h₁ : w <:+: s.dropWhile isWS := infix_dropWhile_of_no_ws hw hws h
  have h₂ : w.reverse <:+: (s.dropWhile isWS).reverse := by
    rw [List.reverse_infix]; exact h₁
  have hwr : w.reverse ≠ [] := by simpa using hw
  have hwsr : ∀ c ∈ w.reverse, isWS c = false := fun c hc =>
    hws c (List.mem_reverse.mp hc)
  have h₃ : w.reverse <:+: (s.dropWhile isWS).reverse.dropWhile isWS :=
    infix_dropWhile_of_no_ws hwr hwsr h₂
  have h₄ := List.reverse_infix.mpr h₃
  rwa [List.reverse_reverse] at h₄

/-- The state `route_stage` produces for a detected greeting. -/
theorem route_stage_greeting (o : Oracles) (q : Str)
    (hg : is_greeting_or_casual q = true) :
    route_stage o q = greetState q := by
  have hamb : ambiguity_flag q = false := by
    simp only [ambiguity_flag, hg, Bool.not_true, Bool.and_false]
    split
    · rfl
    · split <;> rfl
  unfold route_stage
  rw [hamb]
  have h₁ : greet_weather_stage q { initState q with is_ambiguous := false } =
      greetState q := by
    unfold greet_weather_stage
    rw [if_pos hg]
    rfl
  rw [h₁]
  have h₂ : clarify_stage o q (greetState q) = greetState q := rfl
  rw [h₂]
  unfold classifier_stage
  split
  · split <;> rfl
  · rfl

/-- C9: every query of length ≤ 15 containing one of the six greeting
substrings — including genuine news queries like "china", which contains
"hi" — is classified as a greeting; the pipeline then performs no retrieval
at all and answers with the canned greeting, `rag_used = false`,
`articles_found = 0`. -/
theorem c9_greeting_false_positive (o : Oracles) (q today : Str)
    (hlen : q.length ≤ 15)
    (hw : ∃ w ∈ short_greet_words, w <:+: q) :
    is_greeting_or_casual q = true ∧
    (process_request o q today).rag_used = false ∧
    (process_request o q today).articles_found = 0 ∧
    (process_request o q today).search_calls = [] ∧
    (process_request o q today).tools_used = [str "greeting_filter"] ∧
    (process_request o q today).response =
      (if is_chinese q then canned_greeting_zh else canned_greeting_en) := by
  obtain ⟨w, hwmem, hinf⟩ := hw
  have hglen : (trimStr q).length ≤ 15 := le_trans (trimStr_length_le q) hlen
  have hprops : w ≠ [] ∧ (∀ c ∈ w, isWS c = false) ∧ lowerStr w = w := by
    simp only [short_greet_words, List.mem_cons, List.not_mem_nil, or_false] at hwmem
    rcases hwmem with rfl | rfl | rfl | rfl | rfl | rfl <;>
      exact ⟨by decide, by decide, by decide⟩
  have h₂ : w <:+: lowerStr q := hprops.2.2 ▸ List.IsInfix.map lowerChar hinf
  have h₃ : w <:+: trimStr (lowerStr q) :=
    infix_trimStr hprops.1 hprops.2.1 h₂
  have hg : is_greeting_or_casual q = true := by
    unfold is_greeting_or_casual
    by_cases hex : exact_greetings.contains (trimStr (lowerStr q)) = true
    · rw [if_pos hex]
    · rw [if_neg hex, if_pos (by simpa using hglen)]
      exact List.any_eq_true.mpr ⟨w, hwmem, substrB_iff.mpr h₃⟩
  refine ⟨hg, ?_⟩
  have hzh : canned_greeting_zh ≠ [] := by decide
  have hen : canned_greeting_en ≠ [] := by decide
  by_cases hc : is_chinese q = true
  · simp [process_request, route_stage_greeting o q hg, generation_stage,
      suggestions_of, greetState, hc, hzh]
  · simp only [Bool.not_eq_true] at hc
    simp [process_request, route_stage_greeting o q hg, generation_stage,
      suggestions_of, greetState, hc, hen]

/-- C9 witness: the news query "china" (contains "hi") is swallowed by the
greeting filter. -/
theorem c9_witness :
    is_greeting_or_casual (str "china") = true ∧
    (process_request oracleBase (str "china") (str "2025-10-12")).rag_used = false ∧
    (process_request oracleBase (str "china") (str "2025-10-12")).articles_found = 0 ∧
    (process_request oracleBase (str "china") (str "2025-10-12")).search_calls = [] ∧
    (process_request oracleBase (str "china") (str "2025-10-12")).tools_used =
      [str "greeting_filter"] ∧
    (process_request oracleBase (str "china") (str "2025-10-12")).response =
      (if is_chinese (str "china") then canned_greeting_zh else canned_greeting_en) :=
  c9_greeting_false_positive oracleBase (str "china") (str "2025-10-12")
    (by decide) ⟨str "hi", by decide, by decide⟩

/-! ### Routing-stage invariants shared by C2 and C6 -/

/-- The fast classifier either leaves the state alone or only clears
`use_rag`. -/
theorem classifier_stage_eq (o : Oracles) (st : PState) :
    classifier_stage o st = st ∨
    classifier_stage o st = { st with use_rag := false } := by
  unfold classifier_stage
  split
  · split
    · right; rfl
    · left; rfl
  · left; rfl

theorem classifier_use_rag_false (o : Oracles) (st : PState)
    (h : st.use_rag = false) : (classifier_stage o st).use_rag = false := by
  rcases classifier_stage_eq o st with heq | heq <;> rw [heq] <;> simpa

/-- The clarify stage does nothing once retrieval is already disabled. -/
theorem clarify_use_rag_false (o : Oracles) (q : Str) (st : PState)
    (h : st.use_rag = false) : clarify_stage o q st = st := by
  unfold clarify_stage
  rw [if_neg (by simp [h])]

/-- The clarify stage on an ambiguous query with a strong quick match. -/
theorem clarify_stage_pass (o : Oracles) (q : Str) (st : PState)
    (hg : (st.is_ambiguous && st.use_rag) = true)
    (hs : quickStrong o q = true) :
    clarify_stage o q st =
      { st with
        search_calls := st.search_calls ++ [SearchCall.mk q 2 none]
        is_ambiguous := false } := by
  unfold clarify_stage
  rw [if_pos hg, if_pos hs]

/-- The clarify stage on an ambiguous query with no strong quick match. -/
theorem clarify_stage_clarify (o : Oracles) (q : Str) (st : PState)
    (hg : (st.is_ambiguous && st.use_rag) = true)
    (hs : quickStrong o q = false) :
    clarify_stage o q st =
      { st with
        search_calls := st.search_calls ++ [SearchCall.mk q 2 none]
        needs_clarification := true
        use_rag := false
        tools_used := st.tools_used ++ [str "clarify_ambiguous"]
        generated_text :=
          if is_chinese q then clarify_text_zh o q else english_clarify q } := by
  unfold clarify_stage
  rw [if_pos hg, if_neg (by simp [hs])]

/-- Routing when the query is neither a greeting nor a weather query. -/
theorem route_stage_plain (o : Oracles) (q : Str)
    (hg : is_greeting_or_casual q = false)
    (hw : (is_chinese q && weather_keywords.any fun k => substrB k q) = false) :
    route_stage o q =
      classifier_stage o (clarify_stage o q
        { initState q with is_ambiguous := ambiguity_flag q }) := by
  unfold route_stage greet_weather_stage
  rw [if_neg (by simp [hg]), if_neg (by simp [hw])]

/-- Whenever routing leaves retrieval enabled, no canned text has been
produced, no clarification was requested, and the final prompt is still the
original query. -/
theorem route_use_rag_cases (o : Oracles) (q : Str) :
    (route_stage o q).use_rag = false ∨
    ((route_stage o q).generated_text = [] ∧
     (route_stage o q).needs_clarification = false ∧
     (route_stage o q).final_prompt = some q) := by
  by_cases hg : is_greeting_or_casual q = true
  · left; rw [route_stage_greeting o q hg]; rfl
  · have hg' : is_greeting_or_casual q = false := by
      simpa using hg
    by_cases hw : (is_chinese q && weather_keywords.any fun k => substrB k q) = true
    · left
      unfold route_stage greet_weather_stage
      rw [if_neg (by simp [hg']), if_pos hw]
      rw [clarify_use_rag_false o q _ (by rfl)]
      exact classifier_use_rag_false o _ (by rfl)
    · have hw' : (is_chinese q && weather_keywords.any fun k => substrB k q) = false := by
        simpa using hw
      rw [route_stage_plain o q hg' hw']
      by_cases hf : ambiguity_flag q = true
      · by_cases hs : quickStrong o q = true
        · rw [clarify_stage_pass o q _ (by simp [initState, hf]) hs]
          rcases classifier_stage_eq o _ with heq | heq <;> rw [heq] <;>
            exact Or.inr ⟨rfl, rfl, rfl⟩
        · rw [clarify_stage_clarify o q _ (by simp [initState, hf])
            (by simpa using hs)]
          left
          exact classifier_use_rag_false o _ (by rfl)
      · have hf' : ambiguity_flag q = false := by simpa using hf
        rw [show clarify_stage o q { initState q with is_ambiguous := ambiguity_flag q }
            = { initState q with is_ambiguous := ambiguity_flag q } from by
          unfold clarify_stage
          rw [if_neg (by simp [initState, hf'])]]
        rcases classifier_stage_eq o _ with heq | heq <;> rw [heq] <;>
          exact Or.inr ⟨rfl, rfl, rfl⟩

/-- Reflection only touches the tool trace and the conflicts field. -/
theorem reflection_preserves (o : Oracles) (st : PState) :
    (reflection_stage o st).use_rag = st.use_rag ∧
    (reflection_stage o st).needs_clarification = st.needs_clarification ∧
    (reflection_stage o st).generated_text = st.generated_text ∧
    (reflection_stage o st).final_prompt = st.final_prompt ∧
    (reflection_stage o st).search_calls = st.search_calls ∧
    (reflection_stage o st).relevant_articles = st.relevant_articles ∧
    (reflection_stage o st).max_similarity_score = st.max_similarity_score ∧
    (reflection_stage o st).context = st.context := by
  simp only [reflection_stage]
  repeat' split
  all_goals exact ⟨rfl, rfl, rfl, rfl, rfl, rfl, rfl, rfl⟩

theorem reflection_tools_mem (o : Oracles) (st : PState) (x : Str)
    (h : x ∈ st.tools_used) : x ∈ (reflection_stage o st).tools_used := by
  simp only [reflection_stage]
  repeat' split
  all_goals simp [h]

theorem planner_retry_preserves (o : Oracles) (p : Str) (st : PState) :
    (planner_retry_stage o p st).use_rag = st.use_rag ∧
    (planner_retry_stage o p st).needs_clarification = st.needs_clarification ∧
    (planner_retry_stage o p st).generated_text = st.generated_text ∧
    (planner_retry_stage o p st).final_prompt = st.final_prompt := by
  simp only [planner_retry_stage]
  repeat' split
  all_goals exact ⟨rfl, rfl, rfl, rfl⟩

theorem planner_retry_tools_mem (o : Oracles) (p : Str) (st : PState) (x : Str)
    (h : x ∈ st.tools_used) : x ∈ (planner_retry_stage o p st).tools_used := by
  simp only [planner_retry_stage]
  repeat' split
  all_goals simp [h]

theorem planner_retry_calls_le (o : Oracles) (p : Str) (st : PState) :
    st.search_calls.length ≤ (planner_retry_stage o p st).search_calls.length := by
  simp only [planner_retry_stage]
  repeat' split
  all_goals simp

/-- The retrieval stage never touches the routing decisions, the canned
text, or the final prompt. -/
theorem retrieval_preserves (o : Oracles) (p : Str) (st₀ : PState) :
    (retrieval_stage o p st₀).use_rag = st₀.use_rag ∧
    (retrieval_stage o p st₀).needs_clarification = st₀.needs_clarification ∧
    (retrieval_stage o p st₀).generated_text = st₀.generated_text ∧
    (retrieval_stage o p st₀).final_prompt = st₀.final_prompt := by
  simp only [retrieval_stage]
  by_cases hfa : fast_accept (fast_path_state o p st₀) = true
  · rw [if_pos hfa]
    exact ⟨(reflection_preserves o _).1, (reflection_preserves o _).2.1,
      (reflection_preserves o _).2.2.1, (reflection_preserves o _).2.2.2.1⟩
  · rw [if_neg hfa]
    refine ⟨?_, ?_, ?_, ?_⟩
    · exact ((reflection_preserves o _).1).trans (planner_retry_preserves o p _).1
    · exact ((reflection_preserves o _).2.1).trans (planner_retry_preserves o p _).2.1
    · exact ((reflection_preserves o _).2.2.1).trans
        (planner_retry_preserves o p _).2.2.1
    · exact ((reflection_preserves o _).2.2.2.1).trans
        (planner_retry_preserves o p _).2.2.2

/-- The retrieval stage records the fast-path tool tag and at least one more
search call. -/
theorem retrieval_observability (o : Oracles) (p : Str) (st₀ : PState) :
    str "RAG_fast" ∈ (retrieval_stage o p st₀).tools_used ∧
    st₀.search_calls.length + 1 ≤ (retrieval_stage o p st₀).search_calls.length := by
  have hfp : str "RAG_fast" ∈ (fast_path_state o p st₀).tools_used := by
    show str "RAG_fast" ∈ st₀.tools_used ++ [str "RAG_fast"]
    simp
  simp only [retrieval_stage]
  by_cases hfa : fast_accept (fast_path_state o p st₀) = true
  · rw [if_pos hfa]
    constructor
    · exact reflection_tools_mem o _ _ (by simpa using Or.inl hfp)
    · rw [(reflection_preserves o _).2.2.2.2.1]
      show st₀.search_calls.length + 1 ≤ (st₀.search_calls ++ _).length
      simp
  · rw [if_neg hfa]
    constructor
    · exact reflection_tools_mem o _ _ (planner_retry_tools_mem o p _ _ hfp)
    · rw [(reflection_preserves o _).2.2.2.2.1]
      calc st₀.search_calls.length + 1
          = (fast_path_state o p st₀).search_calls.length := by
            show _ = (st₀.search_calls ++ [_]).length
            simp
        _ ≤ _ := planner_retry_calls_le o p _

/-- The relevance gate on a wiping state. -/
theorem gate_wipe (o : Oracles) (p today : Str) (st : PState)
    (hrag : st.use_rag = true)
    (hcond : st.relevant_articles = [] ∨
      st.max_similarity_score.getD 0 < mkRat 45 100) :
    gate_stage o p today st =
      { st with
        pre_gate_articles := st.relevant_articles
        pre_gate_score := st.max_similarity_score
        context := []
        relevant_articles := []
        max_similarity_score := some 0
        final_prompt := some (if is_chinese p then no_info_zh p
          else no_info_en today p) } := by
  unfold gate_stage
  rw [if_pos hrag, if_pos (by simpa using hcond)]

/-- `process_request` once routing has allowed retrieval. -/
theorem process_request_reached (o : Oracles) (p today : Str)
    (h₁ : (route_stage o p).use_rag = true)
    (h₂ : (route_stage o p).needs_clarification = false) :
    process_request o p today =
      (let st₄ := generation_stage o p
        (gate_stage o p today (retrieval_stage o p (route_stage o p)))
       { response := st₄.generated_text
         suggestions := suggestions_of o st₄
         final_prompt_out :=
           if o.stream_mode && !o.use_openrouter then st₄.final_prompt else none
         status := str "success"
         rag_used := st₄.use_rag
         articles_found := st₄.relevant_articles.length
         tools_used := st₄.tools_used
         needs_clarification := st₄.needs_clarification
         context := st₄.context
         relevant_articles := st₄.relevant_articles
         final_prompt_internal := st₄.final_prompt
         pre_gate_articles := st₄.pre_gate_articles
         pre_gate_score := st₄.pre_gate_score
         search_calls := st₄.search_calls
         reached_retrieval := true }) := by
  simp only [process_request]
  rw [h₁, h₂]
  rfl

/-- Final generation when no canned text exists yet. -/
theorem generation_on_empty (o : Oracles) (p : Str) (st : PState)
    (h : st.generated_text = []) :
    generation_stage o p st =
      { st with generated_text :=
          if o.stream_mode && !o.use_openrouter then str "[STREAMING_READY]"
          else o.llm (match st.final_prompt with
            | some s => if s ≠ [] then s else p
            | none => p) } := by
  unfold generation_stage
  rw [if_pos h]
  split
  · rename_i hc
    simp [hc]
  · rename_i hc
    simp only [Bool.not_eq_true] at hc
    simp [hc]

/-- No follow-up suggestions without surviving evidence. -/
theorem suggestions_empty_articles (o : Oracles) (st : PState)
    (h : st.relevant_articles = []) : suggestions_of o st = [] := by
  unfold suggestions_of
  rw [if_neg (by simp [h])]

/-! ### C2 — relevance gate -/

/-- C2: for every query that reaches the retrieval pipeline, if no candidate
survived filtering or the best accumulated score is below
`RELEVANCE_THRESHOLD = 0.45`, all evidence is wiped (context emptied,
article list emptied), the response message carries `rag_used = true` and
`articles_found = 0`, no follow-up suggestions are produced, and the answer
is generated from the fixed templated no-information report alone (in
streaming mode the sentinel is returned and the template is handed back as
the final prompt). -/
theorem c2_relevance_gate (o : Oracles) (prompt today : Str)
    (h₁ : (route_stage o prompt).use_rag = true)
    (h₂ : (route_stage o prompt).needs_clarification = false)
    (h₃ : (retrieval_stage o prompt (route_stage o prompt)).relevant_articles = [] ∨
      (retrieval_stage o prompt (route_stage o prompt)).max_similarity_score.getD 0
        < mkRat 45 100) :
    (process_request o prompt today).rag_used = true ∧
    (process_request o prompt today).articles_found = 0 ∧
    (process_request o prompt today).context = [] ∧
    (process_request o prompt today).relevant_articles = [] ∧
    (process_request o prompt today).suggestions = [] ∧
    (process_request o prompt today).final_prompt_internal =
      some (if is_chinese prompt then no_info_zh prompt
        else no_info_en today prompt) ∧
    ((o.stream_mode && !o.use_openrouter) = false →
      (process_request o prompt today).response =
        o.llm (if is_chinese prompt then no_info_zh prompt
          else no_info_en today prompt)) ∧
    ((o.stream_mode && !o.use_openrouter) = true →
      (process_request o prompt today).response = str "[STREAMING_READY]" ∧
      (process_request o prompt today).final_prompt_out =
        some (if is_chinese prompt then no_info_zh prompt
          else no_info_en today prompt)) := by
  have hre := retrieval_preserves o prompt (route_stage o prompt)
  have hrag₂ : (retrieval_stage o prompt (route_stage o prompt)).use_rag = true :=
    hre.1.trans h₁
  have htext : (route_stage o prompt).generated_text = [] := by
    rcases route_use_rag_cases o prompt with hbad | hgood
    · exact absurd (h₁.symm.trans hbad) (by decide)
    · exact hgood.1
  have htext₂ :
      (retrieval_stage o prompt (route_stage o prompt)).generated_text = [] :=
    hre.2.2.1.trans htext
  have hni : (if is_chinese prompt then no_info_zh prompt
      else no_info_en today prompt) ≠ [] := by
    by_cases hc : is_chinese prompt = true
    · rw [if_pos hc]
      unfold no_info_zh
      intro h
      simp only [List.append_eq_nil] at h
      exact absurd h.1.1 (by decide)
    · rw [if_neg hc]
      unfold no_info_en
      intro h
      simp only [List.append_eq_nil] at h
      exact absurd h.1.1.1.1 (by decide)
  rw [process_request_reached o prompt today h₁ h₂]
  rw [gate_wipe o prompt today _ hrag₂ h₃]
  rw [generation_on_empty o prompt _ (by exact htext₂)]
  refine ⟨hrag₂, rfl, rfl, rfl, suggestions_empty_articles o _ rfl, rfl, ?_, ?_⟩
  · intro hstream
    show (if o.stream_mode && !o.use_openrouter then str "[STREAMING_READY]"
      else o.llm _) = _
    rw [if_neg (by simp [hstream])]
    show o.llm (if (if is_chinese prompt then no_info_zh prompt
        else no_info_en today prompt) ≠ [] then
        (if is_chinese prompt then no_info_zh prompt else no_info_en today prompt)
      else prompt) = _
    rw [if_pos hni]
  · intro hstream
    constructor
    · show (if o.stream_mode && !o.use_openrouter then str "[STREAMING_READY]"
        else o.llm _) = _
      rw [if_pos hstream]
    · show (if o.stream_mode && !o.use_openrouter then _ else none) = _
      rw [if_pos hstream]

/-- C2 witness: the theorem at a concrete query with an empty corpus — the
gate trips and the fixed no-information instruction becomes the prompt. -/
theorem c2_witness :
    (process_request oracleBase (str "tell me about xyzzy today")
      (str "2025-10-12")).rag_used = true ∧
    (process_request oracleBase (str "tell me about xyzzy today")
      (str "2025-10-12")).articles_found = 0 ∧
    (process_request oracleBase (str "tell me about xyzzy today")
      (str "2025-10-12")).final_prompt_internal =
      some (no_info_en (str "2025-10-12") (str "tell me about xyzzy today")) := by
  have h := c2_relevance_gate oracleBase (str "tell me about xyzzy today")
    (str "2025-10-12") (by decide) (by decide) (Or.inl (by decide))
  have hc : is_chinese (str "tell me about xyzzy today") = false := by decide
  refine ⟨h.1, h.2.1, ?_⟩
  have h₆ := h.2.2.2.2.2.1
  rwa [hc] at h₆

/-! ### C6 — ambiguity gate -/

theorem gate_preserves (o : Oracles) (p t : Str) (st : PState) :
    (gate_stage o p t st).needs_clarification = st.needs_clarification ∧
    (gate_stage o p t st).use_rag = st.use_rag ∧
    (gate_stage o p t st).search_calls = st.search_calls := by
  simp only [gate_stage]
  repeat' split
  all_goals exact ⟨rfl, rfl, rfl⟩

theorem gate_tools_mem (o : Oracles) (p t : Str) (st : PState) (x : Str)
    (h : x ∈ st.tools_used) : x ∈ (gate_stage o p t st).tools_used := by
  simp only [gate_stage]
  repeat' split
  all_goals simp [h]

theorem generation_preserves (o : Oracles) (p : Str) (st : PState) :
    (generation_stage o p st).needs_clarification = st.needs_clarification ∧
    (generation_stage o p st).use_rag = st.use_rag ∧
    (generation_stage o p st).search_calls = st.search_calls ∧
    (generation_stage o p st).tools_used = st.tools_used ∧
    (generation_stage o p st).relevant_articles = st.relevant_articles := by
  simp only [generation_stage]
  repeat' split
  all_goals exact ⟨rfl, rfl, rfl, rfl, rfl⟩

/-- With the fast classifier disabled (the deployment default) the
classifier stage is the identity. -/
theorem classifier_noflag (o : Oracles) (st : PState)
    (h : o.use_fast_classifier = false) : classifier_stage o st = st := by
  unfold classifier_stage
  rw [if_neg (by simp [h])]

/-- `process_request` when routing has ended the request early. -/
theorem process_request_not_reached (o : Oracles) (p today : Str)
    (h : ((route_stage o p).use_rag && !(route_stage o p).needs_clarification)
      = false) :
    process_request o p today =
      (let st₄ := generation_stage o p (route_stage o p)
       { response := st₄.generated_text
         suggestions := suggestions_of o st₄
         final_prompt_out :=
           if o.stream_mode && !o.use_openrouter then st₄.final_prompt else none
         status := str "success"
         rag_used := st₄.use_rag
         articles_found := st₄.relevant_articles.length
         tools_used := st₄.tools_used
         needs_clarification := st₄.needs_clarification
         context := st₄.context
         relevant_articles := st₄.relevant_articles
         final_prompt_internal := st₄.final_prompt
         pre_gate_articles := st₄.pre_gate_articles
         pre_gate_score := st₄.pre_gate_score
         search_calls := st₄.search_calls
         reached_retrieval := false }) := by
  simp only [process_request]
  rw [h]
  rfl

/-- An ambiguous query is by definition not a greeting. -/
theorem ambiguity_not_greeting (q : Str) (h : ambiguity_flag q = true) :
    is_greeting_or_casual q = false := by
  unfold ambiguity_flag at h
  by_cases hc : is_chinese q = true
  · rw [if_pos hc] at h
    simp only [Bool.and_eq_true] at h
    simpa using h.2
  · rw [if_neg hc] at h
    rcases hl : splitWS (trimStr q) with _ | ⟨w, _ | ⟨w₂, rest⟩⟩ <;> rw [hl] at h
    · exact absurd h (by simp)
    · simp only [Bool.and_eq_true] at h
      simpa using h.2
    · exact absurd h (by simp)

/-- The Chinese clarification always offers exactly three pairwise-distinct
topic options. -/
theorem clarify_options_spec (p : Str) :
    (clarify_options_zh p).length = 3 ∧
    List.Pairwise (· ≠ ·) (clarify_options_zh p) := by
  unfold clarify_options_zh
  repeat' split
  · exact ⟨rfl, by decide⟩
  · exact ⟨rfl, by decide⟩
  · exact ⟨rfl, by decide⟩
  · refine ⟨rfl, ?_⟩
    apply List.Pairwise.cons
    · intro a' ha'
      simp only [List.mem_cons, List.not_mem_nil, or_false] at ha'
      rcases ha' with rfl | rfl
      · exact fun heq => absurd (List.append_cancel_left heq) (by decide)
      · exact fun heq => absurd (List.append_cancel_left heq) (by decide)
    apply List.Pairwise.cons
    · intro a' ha'
      simp only [List.mem_cons, List.not_mem_nil, or_false] at ha'
      rcases ha' with rfl
      exact fun heq => absurd (List.append_cancel_left heq) (by decide)
    apply List.Pairwise.cons
    · intro a' ha'
      exact absurd ha' (List.not_mem_nil a')
    exact List.Pairwise.nil

theorem english_clarify_ne_nil (p : Str) : english_clarify p ≠ [] := by
  unfold english_clarify
  intro h
  simp only [List.append_eq_nil] at h
  exact absurd h.2 (by decide)

/-- C6 (amended): an ambiguous, non-greeting, non-weather query (≤ 3 Chinese
characters, or a single Latin token of at most 8 characters) triggers one
quick retrieval at `top_k = 2`; the inline lexical check is applied to its
results only for Chinese queries. If the first surviving result scores at
least 0.60 the query proceeds to normal retrieval (at least one further
search call); otherwise a clarification is returned with `articles_found = 0`
and no further retrieval: for a Chinese query it is the clarification
template over exactly three pairwise-distinct topic options, while an
English query gets the fixed four-line clarification text (three topic
options plus an "Other" escape). -/
theorem c6_ambiguity_gate (o : Oracles) (prompt today : Str)
    (hamb : ambiguity_flag prompt = true)
    (hw : (is_chinese prompt && weather_keywords.any fun k => substrB k prompt)
      = false)
    (hfc : o.use_fast_classifier = false) :
    (quickStrong o prompt = true →
      (process_request o prompt today).needs_clarification = false ∧
      str "RAG_fast" ∈ (process_request o prompt today).tools_used ∧
      2 ≤ (process_request o prompt today).search_calls.length) ∧
    (quickStrong o prompt = false →
      (process_request o prompt today).needs_clarification = true ∧
      (process_request o prompt today).rag_used = false ∧
      (process_request o prompt today).articles_found = 0 ∧
      (process_request o prompt today).search_calls =
        [SearchCall.mk prompt 2 none] ∧
      (is_chinese prompt = false →
        (process_request o prompt today).response = english_clarify prompt) ∧
      (is_chinese prompt = true → clarify_text_zh o prompt ≠ [] →
        (process_request o prompt today).response = clarify_text_zh o prompt) ∧
      (clarify_options_zh prompt).length = 3 ∧
      List.Pairwise (· ≠ ·) (clarify_options_zh prompt)) := by
  have hg : is_greeting_or_casual prompt = false := ambiguity_not_greeting prompt hamb
  have hroute : route_stage o prompt =
      classifier_stage o (clarify_stage o prompt
        { initState prompt with is_ambiguous := ambiguity_flag prompt }) :=
    route_stage_plain o prompt hg hw
  constructor
  · intro hs
    have hst₁ : route_stage o prompt =
        { initState prompt with
          is_ambiguous := false
          search_calls := [SearchCall.mk prompt 2 none] } := by
      rw [hroute, clarify_stage_pass o prompt _ (by simp [initState, hamb]) hs,
        classifier_noflag o _ hfc]
      rw [hamb]
      rfl
    have h₁ : (route_stage o prompt).use_rag = true := by rw [hst₁]; rfl
    have h₂ : (route_stage o prompt).needs_clarification = false := by
      rw [hst₁]; rfl
    rw [process_request_reached o prompt today h₁ h₂]
    have hobs := retrieval_observability o prompt (route_stage o prompt)
    have hgatet := gate_tools_mem o prompt today
      (retrieval_stage o prompt (route_stage o prompt))
    have hgp := gate_preserves o prompt today
      (retrieval_stage o prompt (route_stage o prompt))
    have hgen := generation_preserves o prompt
      (gate_stage o prompt today (retrieval_stage o prompt (route_stage o prompt)))
    refine ⟨?_, ?_, ?_⟩
    · show (generation_stage o prompt _).needs_clarification = false
      rw [hgen.1, hgp.1,
        (retrieval_preserves o prompt (route_stage o prompt)).2.1, h₂]
    · show str "RAG_fast" ∈ (generation_stage o prompt _).tools_used
      rw [hgen.2.2.2.1]
      exact hgatet _ hobs.1
    · show 2 ≤ (generation_stage o prompt _).search_calls.length
      rw [hgen.2.2.1, hgp.2.2]
      have hlen : (route_stage o prompt).search_calls.length = 1 := by
        rw [hst₁]; rfl
      exact le_trans (by rw [hlen]) hobs.2
  · intro hs
    have hst₁ : route_stage o prompt =
        { initState prompt with
          is_ambiguous := ambiguity_flag prompt
          search_calls := [SearchCall.mk prompt 2 none]
          needs_clarification := true
          use_rag := false
          tools_used := [str "clarify_ambiguous"]
          generated_text :=
            if is_chinese prompt then clarify_text_zh o prompt
            else english_clarify prompt } := by
      rw [hroute, clarify_stage_clarify o prompt _ (by simp [initState, hamb]) hs]
      rfl
    have hnr : ((route_stage o prompt).use_rag &&
        !(route_stage o prompt).needs_clarification) = false := by
      rw [hst₁]; rfl
    rw [process_request_not_reached o prompt today hnr]
    rw [hst₁]
    refine ⟨?_, ?_, ?_, ?_, ?_, ?_, (clarify_options_spec prompt).1,
      (clarify_options_spec prompt).2⟩
    · show (generation_stage o prompt _).needs_clarification = true
      rw [(generation_preserves o prompt _).1]
    · show (generation_stage o prompt _).use_rag = false
      rw [(generation_preserves o prompt _).2.1]
    · show (generation_stage o prompt _).relevant_articles.length = 0
      rw [(generation_preserves o prompt _).2.2.2.2]
      rfl
    · show (generation_stage o prompt _).search_calls = _
      rw [(generation_preserves o prompt _).2.2.1]
    · intro hc
      have htext : (if is_chinese prompt then clarify_text_zh o prompt
          else english_clarify prompt) = english_clarify prompt := by rw [hc]; rfl
      show (generation_stage o prompt _).generated_text = _
      unfold generation_stage
      rw [if_neg (by simp [htext, english_clarify_ne_nil prompt])]
      simp [htext]
    · intro hc hne
      have htext : (if is_chinese prompt then clarify_text_zh o prompt
          else english_clarify prompt) = clarify_text_zh o prompt := by
        rw [hc]; rfl
      show (generation_stage o prompt _).generated_text = _
      unfold generation_stage
      rw [if_neg (by simp [htext, hne])]
      simp [htext]

/-- C6 counterexample: for the single-token English query "zq" (ambiguous
per the gate's own test), the quick result scores 0.9 yet contains no
occurrence of "zq" — the short-query lexical guardrail would discard every
quick candidate, so per the claim a clarification with three options must be
returned and no further retrieval run. The code instead applies no guardrail
to the quick results of a Latin query, treats the query as not ambiguous,
and performs two further retrieval calls. -/
theorem c6_counterexample :
    ambiguity_flag (str "zq") = true ∧
    ((oracleOffTopic.search (str "zq") 2 none).filter
      (fun a => lexOkEn (trimStr (str "zq")) a)) = [] ∧
    (process_request oracleOffTopic (str "zq")
      (str "2025-10-12")).needs_clarification = false ∧
    str "RAG_fast" ∈ (process_request oracleOffTopic (str "zq")
      (str "2025-10-12")).tools_used ∧
    3 ≤ (process_request oracleOffTopic (str "zq")
      (str "2025-10-12")).search_calls.length := by
  exact ⟨by decide, by decide, by decide, by decide, by decide⟩

/-- C6 witness: the amended theorem at a concrete two-character Chinese
query with an empty corpus — the clarification runs with the three distinct
options and exactly the one quick search call. -/
theorem c6_witness :
    (process_request oracleBase (str "港股")
      (str "2025-10-12")).needs_clarification = true ∧
    (process_request oracleBase (str "港股")
      (str "2025-10-12")).articles_found = 0 ∧
    (process_request oracleBase (str "港股") (str "2025-10-12")).search_calls =
      [SearchCall.mk (str "港股") 2 none] ∧
    (process_request oracleBase (str "港股") (str "2025-10-12")).response =
      clarify_text_zh oracleBase (str "港股") := by
  have h := (c6_ambiguity_gate oracleBase (str "港股") (str "2025-10-12")
    (by decide) (by decide) (by decide)).2 (by decide)
  exact ⟨h.1, h.2.2.1, h.2.2.2.1, h.2.2.2.2.2.1 (by decide) (by decide)⟩

end SelfLLM
